import Mathlib

/-!
# A shallow embedding of the TinyGPS NMEA parser

This file embeds `src/TinyGPS.cpp` / `src/TinyGPS.h` (the per-character
`encode` state machine, the term dispatcher `term_complete`, the numeric
parsing primitives and the accessors) and proves properties of the
specification against it.

Modelling conventions:

* Characters are byte values (`Nat`, intended `< 256`); C strings are
  `List Nat`.  The field buffer `_term` (15 bytes, `_term_offset` chars used
  followed by a NUL written at close) is modelled as the list of the
  characters stored since the last buffer reset; reading index `i` of the
  buffer (`termAt`) yields the stored character, or 0 (NUL) past the end.
  This matches the C buffer for every read the parser performs, except that
  a read beyond the NUL terminator (possible only for a checksum term
  shorter than two characters) returns 0 instead of an unspecified stale
  byte.
* `unsigned long`/`uint32_t` arithmetic is `Nat` reduced `% 2^32` at the
  points where the C code stores into a 32-bit unsigned object; `byte` /
  `uint8_t` stores reduce `% 256`; `unsigned short` stores reduce `% 2^16`.
  Signed `long`/`int` values are `Int`; the `unsigned → signed` conversions
  the code performs are two's-complement (`toInt32`).
* `millis()` is an external monotonic clock; it is passed to `encode` as the
  explicit parameter `now`.
* The C++ constructor leaves the staging (`_new_*`) members, the satellite
  table and the satellite cursor variables uninitialized; the model gives
  them fixed defaults (the staging slots mirror their fix-state sentinels,
  the table is all zeroes, the cursors are 0).
* The state is partitioned into `Core` (everything the transition relation
  reads: cursor, checksum, sentence tagging and all staging slots), `Out`
  (the publicly readable fix state, satellite table and constellation
  buffer, which the machine only ever writes), and `Stats` (the three
  statistics counters, which only feed themselves).  The fields are exactly
  the members of `class TinyGPS`.
-/

namespace TinyGPS

/-- Byte view of a string (each character reduced to a byte). -/
def bytes (s : String) : List Nat := s.toList.map (fun c => c.toNat % 256)

/-- 2^32, the modulus of `unsigned long` / `uint32_t` arithmetic. -/
def M32 : Nat := 4294967296

/-- 2^16, the modulus of `unsigned short` arithmetic. -/
def M16 : Nat := 65536

-- Sentinel constants from the `enum` in TinyGPS.h.
def GPS_INVALID_AGE : Nat := 4294967295
def GPS_INVALID_ANGLE : Nat := 999999999
def GPS_INVALID_ALTITUDE : Nat := 999999999
def GPS_INVALID_DATE : Nat := 0
def GPS_INVALID_TIME : Nat := 4294967295
def GPS_INVALID_SPEED : Nat := 999999999
def GPS_INVALID_FIX_TIME : Nat := 4294967295
def GPS_INVALID_SATELLITES : Nat := 255
def GPS_INVALID_HDOP : Nat := 4294967295

-- Values of the private sentence-type enum, in declaration order.
def SENT_GPGGA : Nat := 0
def SENT_GPRMC : Nat := 1
def SENT_GNGNS : Nat := 2
def SENT_GNGSA : Nat := 3
def SENT_GPGSV : Nat := 4
def SENT_GLGSV : Nat := 5
def SENT_GPZDA : Nat := 6
def SENT_PUBX : Nat := 7
def SENT_OTHER : Nat := 8

/-- Read byte `i` of a C string modelled as a list; past the end this is the
NUL terminator 0. -/
def termAt (t : List Nat) (i : Nat) : Nat := t.getD i 0

/-- `gpsisdigit` from TinyGPS.h. -/
def gpsisdigit (c : Nat) : Bool := decide (48 ≤ c ∧ c ≤ 57)

/-- Accumulator loop of `gpsatol`. -/
def gpsatolAux : Nat → List Nat → Nat
  | acc, c :: r => if gpsisdigit c then gpsatolAux (10 * acc + (c - 48)) r else acc
  | acc, [] => acc

/-- `gpsatol`: read a leading run of decimal digits (no sign). -/
def gpsatol (t : List Nat) : Nat := gpsatolAux 0 t

/-- C `atoi`: optional whitespace, optional sign, then decimal digits. -/
def atoi (t : List Nat) : Int :=
  let q := t.dropWhile (fun c => decide (c = 32 ∨ c = 9 ∨ c = 10 ∨ c = 11 ∨ c = 12 ∨ c = 13))
  if termAt q 0 = 45 then - (gpsatol (q.drop 1) : Int)
  else if termAt q 0 = 43 then (gpsatol (q.drop 1) : Int)
  else (gpsatol q : Int)

/-- Conversion of a C `int` to `uint8_t` (used by the casts in
`term_complete`). -/
def ucharOfInt (i : Int) : Nat := (i % 256).toNat

/-- `from_hex` from TinyGPS.cpp: the fall-through branch applies `a - '0'`
to arbitrary characters, so the result is a C `int` and may be negative. -/
def from_hex (a : Nat) : Int :=
  if 65 ≤ a ∧ a ≤ 70 then (a : Int) - 65 + 10
  else if 97 ≤ a ∧ a ≤ 102 then (a : Int) - 97 + 10
  else (a : Int) - 48

/-- The transmitted checksum of a checksum term:
`byte checksum = 16 * from_hex(_term[0]) + from_hex(_term[1]);`
(the `int` result is stored into a `byte`, i.e. reduced mod 256). -/
def checksumOfTerm (t : List Nat) : Nat :=
  ((16 * from_hex (termAt t 0) + from_hex (termAt t 1)) % 256).toNat

/-- Two's-complement reading of a 32-bit unsigned value as a signed `long`. -/
def toInt32 (n : Nat) : Int :=
  if n % M32 < 2147483648 then (n % M32 : Int) else (n % M32 : Int) - (M32 : Int)

/-- `parse_decimal` from TinyGPS.cpp: fixed point with exactly two decimal
digits; a leading `-` negates in `unsigned long` arithmetic. -/
def parse_decimal (t : List Nat) : Nat :=
  let isneg := termAt t 0 = 45
  let p := if isneg then t.drop 1 else t
  let r0 := 100 * (gpsatol p % M32) % M32
  let q := p.dropWhile (fun c => gpsisdigit c)
  let r1 :=
    if termAt q 0 = 46 then
      if gpsisdigit (termAt q 1) then
        if gpsisdigit (termAt q 2) then r0 + 10 * (termAt q 1 - 48) + (termAt q 2 - 48)
        else r0 + 10 * (termAt q 1 - 48)
      else r0
    else r0
  if isneg then (M32 - r1 % M32) % M32 else r1 % M32

/-- The fraction loop of `parse_degrees`: add `mult * digit`, dividing
`mult` by 10 each step, until a non-digit. -/
def degFrac : List Nat → Nat → Nat → Nat
  | c :: r, mult, acc =>
      if gpsisdigit c then degFrac r (mult / 10) (acc + mult * (c - 48)) else acc
  | [], _, acc => acc

/-- `parse_degrees` from TinyGPS.cpp: `ddmm.mmmm` to millionths of a degree,
with the `+3` round-to-nearest bias before the divide-by-6. -/
def parse_degrees (t : List Nat) : Nat :=
  let left := gpsatol t % M32
  let h0 := (left % 100) * 100000
  let q := t.dropWhile (fun c => gpsisdigit c)
  let h := if termAt q 0 = 46 then degFrac (q.drop 1) 10000 h0 else h0
  ((left / 100) * 1000000 + (h + 3) / 6) % M32

/-- `gpsstrcmp` from TinyGPS.cpp: returns the first char of `str1` at the
first position where the walk stops; in particular it returns 0 exactly when
`str1` is exhausted first, i.e. when `str1` is a prefix of `str2`. -/
def gpsstrcmp : List Nat → List Nat → Nat
  | [], _ => 0
  | a :: r1, b :: r2 => if a ≠ 0 ∧ a = b then gpsstrcmp r1 r2 else a
  | a :: _, [] => a

/-- The parser cursor, checksum and staging state: every member of
`class TinyGPS` that the transition function reads. -/
structure Core where
  parity : Nat
  is_checksum_term : Bool
  term : List Nat
  sentence_type : Nat
  ubx_type : Nat
  term_number : Nat
  gps_data_good : Bool
  new_time : Nat
  new_date : Nat
  new_latitude : Int
  new_longitude : Int
  new_altitude : Int
  new_speed : Nat
  new_course : Nat
  new_hdop : Nat
  new_numsats : Nat
  new_time_fix : Nat
  new_position_fix : Nat
  new_year : Nat
  new_month : Nat
  new_day : Nat
  new_date_fix : Nat
  sat_index : Nat
  tracked_satellites_index : Int
  deriving DecidableEq, Repr

/-- The publicly readable outputs: the fix state, the satellite tracking
table and the constellation buffer.  The machine writes these but never
reads them. -/
structure Out where
  time : Nat
  date : Nat
  latitude : Int
  longitude : Int
  altitude : Int
  speed : Nat
  course : Nat
  hdop : Nat
  numsats : Nat
  year : Nat
  month : Nat
  day : Nat
  last_time_fix : Nat
  last_position_fix : Nat
  last_date_fix : Nat
  tracked_sat_rec : List Nat
  constellations : List Nat
  deriving DecidableEq, Repr

/-- The optional statistics counters. -/
structure Stats where
  encoded_characters : Nat
  good_sentences : Nat
  failed_checksum : Nat
  deriving DecidableEq, Repr

/-- The whole parser object. -/
structure State where
  core : Core
  out : Out
  stats : Stats
  deriving DecidableEq, Repr

/-- The Fix State of the claims: the fix fields of `Out` (without the
satellite table and constellation buffer). -/
structure Fix where
  time : Nat
  date : Nat
  latitude : Int
  longitude : Int
  altitude : Int
  speed : Nat
  course : Nat
  hdop : Nat
  numsats : Nat
  year : Nat
  month : Nat
  day : Nat
  last_time_fix : Nat
  last_position_fix : Nat
  last_date_fix : Nat
  deriving DecidableEq, Repr

/-- Project the Fix State out of a parser state. -/
def fixOf (s : State) : Fix :=
  { time := s.out.time, date := s.out.date, latitude := s.out.latitude
    longitude := s.out.longitude, altitude := s.out.altitude, speed := s.out.speed
    course := s.out.course, hdop := s.out.hdop, numsats := s.out.numsats
    year := s.out.year, month := s.out.month, day := s.out.day
    last_time_fix := s.out.last_time_fix, last_position_fix := s.out.last_position_fix
    last_date_fix := s.out.last_date_fix }

/-- The position/velocity/precision part of the Fix State: the fields that
only the data-good commit ever writes (latitude, longitude, altitude,
speed, course, hdop, numsats, last position fix). -/
def posVelOf (s : State) : Int × Int × Int × Nat × Nat × Nat × Nat × Nat :=
  (s.out.latitude, s.out.longitude, s.out.altitude, s.out.speed,
   s.out.course, s.out.hdop, s.out.numsats, s.out.last_position_fix)

/-- The state built by the `TinyGPS::TinyGPS()` constructor.  Members the
constructor does not mention (staging slots, satellite table and cursors)
are uninitialized in C++ and get fixed defaults here (see the header
comment). -/
def initState : State :=
  { core :=
    { parity := 0
      is_checksum_term := false
      term := []
      sentence_type := SENT_OTHER
      ubx_type := 0
      term_number := 0
      gps_data_good := false
      new_time := GPS_INVALID_TIME
      new_date := GPS_INVALID_DATE
      new_latitude := (GPS_INVALID_ANGLE : Int)
      new_longitude := (GPS_INVALID_ANGLE : Int)
      new_altitude := (GPS_INVALID_ALTITUDE : Int)
      new_speed := GPS_INVALID_SPEED
      new_course := GPS_INVALID_ANGLE
      new_hdop := GPS_INVALID_HDOP
      new_numsats := GPS_INVALID_SATELLITES
      new_time_fix := GPS_INVALID_FIX_TIME
      new_position_fix := GPS_INVALID_FIX_TIME
      new_year := GPS_INVALID_DATE
      new_month := GPS_INVALID_DATE
      new_day := GPS_INVALID_DATE
      new_date_fix := GPS_INVALID_FIX_TIME
      sat_index := 0
      tracked_satellites_index := 0 }
    out :=
    { time := GPS_INVALID_TIME
      date := GPS_INVALID_DATE
      latitude := (GPS_INVALID_ANGLE : Int)
      longitude := (GPS_INVALID_ANGLE : Int)
      altitude := (GPS_INVALID_ALTITUDE : Int)
      speed := GPS_INVALID_SPEED
      course := GPS_INVALID_ANGLE
      hdop := GPS_INVALID_HDOP
      numsats := GPS_INVALID_SATELLITES
      year := GPS_INVALID_DATE
      month := GPS_INVALID_DATE
      day := GPS_INVALID_DATE
      last_time_fix := GPS_INVALID_FIX_TIME
      last_position_fix := GPS_INVALID_FIX_TIME
      last_date_fix := GPS_INVALID_FIX_TIME
      tracked_sat_rec := List.replicate 24 0
      constellations := [] }
    stats := { encoded_characters := 0, good_sentences := 0, failed_checksum := 0 } }

/-- `COMBINE(sentence_type, term_number)`, with the PUBX refinement
`UBX_MESSAGE(_UBX_message_type)` applied first, exactly as in
`term_complete` (32-bit unsigned shift-and-or). -/
def dispatchKey (C : Core) : Nat :=
  let stv := if C.sentence_type = SENT_PUBX then ((SENT_PUBX <<< 5) ||| C.ubx_type) else C.sentence_type
  ((stv <<< 5) % M32) ||| C.term_number

/-- `count` iterations of the slot-clearing loop: clear `l[x]`, `l[x+1]`,
…, `l[x+count-1]`. -/
def resetSlotsAux : List Nat → Nat → Nat → List Nat
  | l, _, 0 => l
  | l, x, count + 1 => resetSlotsAux (l.set x 0) (x + 1) count

/-- The loop that clears 12 satellite slots starting at `start` when a GSV
sequence restarts. -/
def resetSlots (l : List Nat) (start : Nat) : List Nat :=
  resetSlotsAux l start 12

/-- The index into `tracked_sat_rec[24]` used by the GSV strength cases:
`_sat_index + (_term_number - 7) / 4`.  The C code performs this array
write without any bounds check. -/
def gsvStrengthIndex (C : Core) : Nat := C.sat_index + (C.term_number - 7) / 4

/-- The packed record written for a tracked satellite:
`_tracked_satellites_index << 8 | stren << 1`, stored into a `uint32_t`. -/
def satRecVal (prn : Int) (stren : Nat) : Nat :=
  (((prn % (M32 : Int)).toNat <<< 8) ||| (stren <<< 1)) % M32

/-- The sentence identification performed on term 0 of a sentence (the
`gpsstrcmp` if-chain; note `gpsstrcmp` accepts any prefix of a tag). -/
def identify (t : List Nat) : Nat :=
  if gpsstrcmp t (bytes "GPRMC") = 0 ∨ gpsstrcmp t (bytes "GNRMC") = 0 then SENT_GPRMC
  else if gpsstrcmp t (bytes "GPGGA") = 0 then SENT_GPGGA
  else if gpsstrcmp t (bytes "GNGNS") = 0 then SENT_GNGNS
  else if gpsstrcmp t (bytes "GNGSA") = 0 ∨ gpsstrcmp t (bytes "GPGSA") = 0 then SENT_GNGSA
  else if gpsstrcmp t (bytes "GPGSV") = 0 then SENT_GPGSV
  else if gpsstrcmp t (bytes "GLGSV") = 0 then SENT_GLGSV
  else if gpsstrcmp t (bytes "GPZDA") = 0 then SENT_GPZDA
  else if gpsstrcmp t (bytes "PUBX") = 0 then SENT_PUBX
  else SENT_OTHER

/-- The `switch(COMBINE(sentence_type, _term_number))` dispatcher of
`term_complete` (the non-checksum field decoding).  Branches are keyed by
the literal `COMBINE` values; the `GNGSA,3` case (99) is an explicit empty
`break` in the source and is a no-op here too. -/
def dispatch (now : Nat) (s : State) : State :=
  match dispatchKey s.core with
  | 33 | 1 | 65 | 193 | 7170 | 7298 =>
    -- time in GPRMC,1 GPGGA,1 GNGNS,1 GPZDA,1 PUBX00,2 PUBX04,2
    { s with core := { s.core with new_time := parse_decimal s.core.term, new_time_fix := now } }
  | 34 => -- GPRMC validity
    { s with core := { s.core with gps_data_good := decide (termAt s.core.term 0 = 65) } }
  | 35 | 2 | 66 | 7171 => -- latitude
    { s with core := { s.core with new_latitude := toInt32 (parse_degrees s.core.term),
                                   new_position_fix := now } }
  | 36 | 3 | 67 | 7172 => -- N/S
    if termAt s.core.term 0 = 83 then
      { s with core := { s.core with new_latitude := - s.core.new_latitude } }
    else s
  | 37 | 4 | 68 | 7173 => -- longitude
    { s with core := { s.core with new_longitude := toInt32 (parse_degrees s.core.term) } }
  | 38 | 5 | 69 | 7174 => -- E/W
    if termAt s.core.term 0 = 87 then
      { s with core := { s.core with new_longitude := - s.core.new_longitude } }
    else s
  | 70 => -- GNGNS constellations
    { s with out := { s.out with constellations := s.core.term.take 5 } }
  | 39 | 7179 => -- speed
    { s with core := { s.core with new_speed := parse_decimal s.core.term } }
  | 40 | 7180 => -- course
    { s with core := { s.core with new_course := parse_decimal s.core.term } }
  | 41 | 7299 => -- date
    { s with core := { s.core with new_date := gpsatol s.core.term % M32 } }
  | 194 => -- GPZDA day
    { s with core := { s.core with new_day := gpsatol s.core.term % M32, new_date_fix := now } }
  | 195 => -- GPZDA month
    { s with core := { s.core with new_month := gpsatol s.core.term % M32, new_date_fix := now } }
  | 196 => -- GPZDA year
    { s with core := { s.core with new_year := gpsatol s.core.term % M32, new_date_fix := now } }
  | 6 => -- GPGGA fix quality
    { s with core := { s.core with gps_data_good := decide (48 < termAt s.core.term 0) } }
  | 7 | 71 | 7186 => -- satellites used
    { s with core := { s.core with new_numsats := ucharOfInt (atoi s.core.term) } }
  | 8 | 7183 => -- HDOP
    { s with core := { s.core with new_hdop := parse_decimal s.core.term } }
  | 9 | 7175 => -- altitude
    { s with core := { s.core with new_altitude := toInt32 (parse_decimal s.core.term) } }
  | 7176 => -- PUBX00 navigation status
    { s with core := { s.core with gps_data_good := decide (termAt s.core.term 0 = 71 ∨ (termAt s.core.term 0 = 68 ∧ termAt s.core.term 1 ≠ 82)) } }
  | 99 => s -- GNGSA,3: an empty case in the source
  | 130 | 162 =>
    -- GSV sequence begin
    let msgId := ucharOfInt (atoi s.core.term - 1)
    let tab :=
      if msgId = 0 then
        if s.core.sentence_type = SENT_GPGSV then resetSlots s.out.tracked_sat_rec 0
        else resetSlots s.out.tracked_sat_rec 12
      else s.out.tracked_sat_rec
    let si := if s.core.sentence_type = SENT_GLGSV then (msgId * 4 + 12) % 256 else (msgId * 4) % 256
    { s with core := { s.core with sat_index := si },
             out := { s.out with tracked_sat_rec := tab } }
  | 132 | 136 | 140 | 144 | 164 | 168 | 172 | 176 => -- satellite PRN
    { s with core := { s.core with tracked_satellites_index := atoi s.core.term } }
  | 135 | 139 | 143 | 147 | 167 | 171 | 175 | 179 => -- strength
    let stren := ucharOfInt (atoi s.core.term)
    if stren = 0 then
      { s with out := { s.out with tracked_sat_rec :=
          s.out.tracked_sat_rec.set (gsvStrengthIndex s.core) 0 } }
    else
      { s with out := { s.out with tracked_sat_rec :=
          (s.out.tracked_sat_rec.set (gsvStrengthIndex s.core) (satRecVal s.core.tracked_satellites_index stren)) } }
  | _ => s

/-- The core-component effect of `dispatch`, as a function of the core
alone (no branch of the dispatcher lets the core depend on the outputs). -/
def dispatchCore (now : Nat) (C : Core) : Core :=
  match dispatchKey C with
  | 33 | 1 | 65 | 193 | 7170 | 7298 =>
    { C with new_time := parse_decimal C.term, new_time_fix := now }
  | 34 => { C with gps_data_good := decide (termAt C.term 0 = 65) }
  | 35 | 2 | 66 | 7171 =>
    { C with new_latitude := toInt32 (parse_degrees C.term), new_position_fix := now }
  | 36 | 3 | 67 | 7172 =>
    if termAt C.term 0 = 83 then { C with new_latitude := - C.new_latitude } else C
  | 37 | 4 | 68 | 7173 => { C with new_longitude := toInt32 (parse_degrees C.term) }
  | 38 | 5 | 69 | 7174 =>
    if termAt C.term 0 = 87 then { C with new_longitude := - C.new_longitude } else C
  | 70 => C
  | 39 | 7179 => { C with new_speed := parse_decimal C.term }
  | 40 | 7180 => { C with new_course := parse_decimal C.term }
  | 41 | 7299 => { C with new_date := gpsatol C.term % M32 }
  | 194 => { C with new_day := gpsatol C.term % M32, new_date_fix := now }
  | 195 => { C with new_month := gpsatol C.term % M32, new_date_fix := now }
  | 196 => { C with new_year := gpsatol C.term % M32, new_date_fix := now }
  | 6 => { C with gps_data_good := decide (48 < termAt C.term 0) }
  | 7 | 71 | 7186 => { C with new_numsats := ucharOfInt (atoi C.term) }
  | 8 | 7183 => { C with new_hdop := parse_decimal C.term }
  | 9 | 7175 => { C with new_altitude := toInt32 (parse_decimal C.term) }
  | 7176 => { C with gps_data_good := decide (termAt C.term 0 = 71 ∨ (termAt C.term 0 = 68 ∧ termAt C.term 1 ≠ 82)) }
  | 99 => C
  | 130 | 162 =>
    let msgId := ucharOfInt (atoi C.term - 1)
    let si := if C.sentence_type = SENT_GLGSV then (msgId * 4 + 12) % 256 else (msgId * 4) % 256
    { C with sat_index := si }
  | 132 | 136 | 140 | 144 | 164 | 168 | 172 | 176 =>
    { C with tracked_satellites_index := atoi C.term }
  | 135 | 139 | 143 | 147 | 167 | 171 | 175 | 179 => C
  | _ => C

/-- The output-component effect of `dispatch`, as a function of the core
and the previous outputs. -/
def dispatchOut (C : Core) (o : Out) : Out :=
  match dispatchKey C with
  | 33 | 1 | 65 | 193 | 7170 | 7298 => o
  | 34 => o
  | 35 | 2 | 66 | 7171 => o
  | 36 | 3 | 67 | 7172 => o
  | 37 | 4 | 68 | 7173 => o
  | 38 | 5 | 69 | 7174 => o
  | 70 => { o with constellations := C.term.take 5 }
  | 39 | 7179 => o
  | 40 | 7180 => o
  | 41 | 7299 => o
  | 194 => o
  | 195 => o
  | 196 => o
  | 6 => o
  | 7 | 71 | 7186 => o
  | 8 | 7183 => o
  | 9 | 7175 => o
  | 7176 => o
  | 99 => o
  | 130 | 162 =>
    let msgId := ucharOfInt (atoi C.term - 1)
    let tab :=
      if msgId = 0 then
        if C.sentence_type = SENT_GPGSV then resetSlots o.tracked_sat_rec 0
        else resetSlots o.tracked_sat_rec 12
      else o.tracked_sat_rec
    { o with tracked_sat_rec := tab }
  | 132 | 136 | 140 | 144 | 164 | 168 | 172 | 176 => o
  | 135 | 139 | 143 | 147 | 167 | 171 | 175 | 179 =>
    let stren := ucharOfInt (atoi C.term)
    if stren = 0 then
      { o with tracked_sat_rec := o.tracked_sat_rec.set (gsvStrengthIndex C) 0 }
    else
      { o with tracked_sat_rec := (o.tracked_sat_rec.set (gsvStrengthIndex C) (satRecVal C.tracked_satellites_index stren)) }
  | _ => o

/-- First paragraph of the commit in `term_complete`: on checksum match,
GPRMC and PUBX,04 sentences set time/date "even if not tracking". -/
def commitDateTime (s : State) : State :=
  if s.core.sentence_type = SENT_GPRMC ∨
     (s.core.sentence_type = SENT_PUBX ∧ s.core.ubx_type = 4) then
    { s with out := { s.out with time := s.core.new_time, date := s.core.new_date,
                                 last_time_fix := s.core.new_time_fix } }
  else s

/-- Second paragraph of the commit in `term_complete`: GPZDA sentences set
time and the cracked day/month/year. -/
def commitZDA (s : State) : State :=
  if s.core.sentence_type = SENT_GPZDA then
    { s with out := { s.out with time := s.core.new_time,
                                 last_time_fix := s.core.new_time_fix,
                                 day := s.core.new_day, month := s.core.new_month,
                                 year := s.core.new_year,
                                 last_date_fix := s.core.new_date_fix } }
  else s

/-- Body of `if (_gps_data_good)` in `term_complete`: count the good
sentence, stamp the fix times, and promote the staged fields selected by
the `switch (_sentence_type)`. -/
def commitGood (s : State) : State :=
  let s3 := { s with
    stats := { s.stats with good_sentences := (s.stats.good_sentences + 1) % M16 },
    out := { s.out with last_time_fix := s.core.new_time_fix,
                        last_position_fix := s.core.new_position_fix } }
  if s3.core.sentence_type = SENT_GPRMC then
    { s3 with out := { s3.out with time := s3.core.new_time, date := s3.core.new_date,
                                   latitude := s3.core.new_latitude,
                                   longitude := s3.core.new_longitude,
                                   speed := s3.core.new_speed,
                                   course := s3.core.new_course } }
  else if s3.core.sentence_type = SENT_GPGGA then
    { s3 with out := { s3.out with altitude := s3.core.new_altitude,
                                   time := s3.core.new_time,
                                   latitude := s3.core.new_latitude,
                                   longitude := s3.core.new_longitude,
                                   numsats := s3.core.new_numsats,
                                   hdop := s3.core.new_hdop } }
  else if s3.core.sentence_type = SENT_PUBX then
    if s3.core.ubx_type = 0 then
      { s3 with out := { s3.out with time := s3.core.new_time,
                                     latitude := s3.core.new_latitude,
                                     longitude := s3.core.new_longitude,
                                     speed := s3.core.new_speed,
                                     course := s3.core.new_course,
                                     altitude := s3.core.new_altitude,
                                     numsats := s3.core.new_numsats,
                                     hdop := s3.core.new_hdop } }
    else s3
  else s3

/-- `term_complete` from TinyGPS.cpp: checksum verification and commit on a
checksum term, otherwise sentence identification / PUBX submessage capture /
field dispatch. -/
def term_complete (now : Nat) (s : State) : Bool × State :=
  if s.core.is_checksum_term then
    if checksumOfTerm s.core.term = s.core.parity then
      let s2 := commitZDA (commitDateTime s)
      if s2.core.gps_data_good then (true, commitGood s2)
      else (false, s2)
    else
      (false, { s with stats := { s.stats with failed_checksum := (s.stats.failed_checksum + 1) % M16 } })
  else if s.core.term_number = 0 then
    (false, { s with core := { s.core with sentence_type := identify s.core.term } })
  else if s.core.sentence_type = SENT_PUBX ∧ s.core.term_number = 1 then
    (false, { s with core := { s.core with ubx_type := gpsatol s.core.term % M32 } })
  else if s.core.sentence_type ≠ SENT_OTHER ∧ termAt s.core.term 0 ≠ 0 then
    (false, dispatch now s)
  else (false, s)

/-- The term-terminator epilogue shared by `','`, `'\r'`, `'\n'` and `'*'`
in `encode`: run `term_complete` if the buffer has room for the NUL, then
advance the term number, reset the buffer, and mark a checksum term after
`'*'`. -/
def closeTerm (now : Nat) (s : State) (c : Nat) : Bool × State :=
  let p := if s.core.term.length < 15 then term_complete now s else (false, s)
  (p.1, { p.2 with core := { p.2.core with term_number := (p.2.core.term_number + 1) % 256,
                                           term := [],
                                           is_checksum_term := decide (c = 42) } })

/-- `encode` from TinyGPS.cpp: process one received character. -/
def encode (now : Nat) (s : State) (c : Nat) : Bool × State :=
  let s0 := { s with stats := { s.stats with
                encoded_characters := (s.stats.encoded_characters + 1) % M32 } }
  if c = 44 then
    closeTerm now { s0 with core := { s0.core with parity := (s0.core.parity ^^^ 44) % 256 } } c
  else if c = 13 ∨ c = 10 ∨ c = 42 then
    closeTerm now s0 c
  else if c = 36 then
    (false, { s0 with core := { s0.core with term_number := 0, term := [], parity := 0,
                                             sentence_type := SENT_OTHER,
                                             is_checksum_term := false,
                                             gps_data_good := false } })
  else
    let s1 := if s0.core.term.length < 14 then
        { s0 with core := { s0.core with term := s0.core.term ++ [c] } }
      else s0
    if s1.core.is_checksum_term then (false, s1)
    else (false, { s1 with core := { s1.core with parity := (s1.core.parity ^^^ c) % 256 } })

/-- Feed a list of characters, discarding the per-character returns. -/
def run (now : Nat) (s : State) : List Nat → State
  | [] => s
  | c :: r => run now (encode now s c).2 r

/-- Holds exactly when feeding `c` in state `s` evaluates a checksum term
whose transmitted checksum equals the accumulated parity (the only kind of
step that can write any fix-state field; for a `','` terminator the comma
is folded into the parity before the evaluation). -/
def checksumPassed (s : State) (c : Nat) : Prop :=
  (c = 44 ∨ c = 13 ∨ c = 10 ∨ c = 42) ∧ s.core.term.length < 15 ∧
  s.core.is_checksum_term = true ∧
  checksumOfTerm s.core.term =
    (if c = 44 then (s.core.parity ^^^ 44) % 256 else s.core.parity)

instance (s : State) (c : Nat) : Decidable (checksumPassed s c) := by
  unfold checksumPassed
  infer_instance

/-- `true` when some step of feeding `cs` from `s` passes a checksum. -/
def passAlong (now : Nat) (s : State) : List Nat → Bool
  | [] => false
  | c :: r => decide (checksumPassed s c) || passAlong now (encode now s c).2 r

/-- `true` when some call of `encode` along `cs` from `s` returns `true`,
i.e. when some sentence validates. -/
def anyTrue (now : Nat) (s : State) : List Nat → Bool
  | [] => false
  | c :: r => (encode now s c).1 || anyTrue now (encode now s c).2 r

/-- 32-bit unsigned subtraction, as in `millis() - _last_position_fix`. -/
def usub32 (a b : Nat) : Nat := (a % M32 + (M32 - b % M32)) % M32

/-- `get_position`: latitude, longitude, age of the position fix. -/
def get_position (now : Nat) (s : State) : Int × Int × Nat :=
  (s.out.latitude, s.out.longitude,
    if s.out.last_position_fix = GPS_INVALID_FIX_TIME then GPS_INVALID_AGE
    else usub32 now s.out.last_position_fix)

/-- `get_datetime`: date, time, age of the time fix. -/
def get_datetime (now : Nat) (s : State) : Nat × Nat × Nat :=
  (s.out.date, s.out.time,
    if s.out.last_time_fix = GPS_INVALID_FIX_TIME then GPS_INVALID_AGE
    else usub32 now s.out.last_time_fix)

/-- `altitude()` accessor. -/
def altitude (s : State) : Int := s.out.altitude

/-- `course()` accessor. -/
def course (s : State) : Nat := s.out.course

/-- `speed()` accessor. -/
def speed (s : State) : Nat := s.out.speed

/-- `satellites()` accessor. -/
def satellites (s : State) : Nat := s.out.numsats

/-- `hdop()` accessor. -/
def hdop (s : State) : Nat := s.out.hdop

/-- A complete valid RMC sentence up to and including the comma that
closes its date field (the prefix that re-stages every slot the sentence
promotes). -/
def C8A : List Nat := bytes "$GPRMC,045103.000,A,3014.1984,N,09749.2872,W,0.67,161.46,030913,"

/-- The rest of that sentence: the empty fields, mode, checksum and the
terminator. -/
def C8B : List Nat := bytes ",,A*7C" ++ [13]

/-- Two-run write relation: after a step of two parallel runs, an output
location either was written in both runs with a common value (`a = b`) or
was untouched in both (`a = a0 ∧ b = b0`). -/
def relW {α : Type _} (a b a0 b0 : α) : Prop := a = b ∨ (a = a0 ∧ b = b0)

/-- Two-run relation on the outputs: every fix field and the constellation
buffer satisfy `relW`, the satellite table satisfies `relW` slot by slot,
and the two tables have the same length. -/
def OutRel (a b a0 b0 : Out) : Prop :=
  relW a.time b.time a0.time b0.time ∧
  relW a.date b.date a0.date b0.date ∧
  relW a.latitude b.latitude a0.latitude b0.latitude ∧
  relW a.longitude b.longitude a0.longitude b0.longitude ∧
  relW a.altitude b.altitude a0.altitude b0.altitude ∧
  relW a.speed b.speed a0.speed b0.speed ∧
  relW a.course b.course a0.course b0.course ∧
  relW a.hdop b.hdop a0.hdop b0.hdop ∧
  relW a.numsats b.numsats a0.numsats b0.numsats ∧
  relW a.year b.year a0.year b0.year ∧
  relW a.month b.month a0.month b0.month ∧
  relW a.day b.day a0.day b0.day ∧
  relW a.last_time_fix b.last_time_fix a0.last_time_fix b0.last_time_fix ∧
  relW a.last_position_fix b.last_position_fix a0.last_position_fix b0.last_position_fix ∧
  relW a.last_date_fix b.last_date_fix a0.last_date_fix b0.last_date_fix ∧
  relW a.constellations b.constellations a0.constellations b0.constellations ∧
  (∀ i, relW (a.tracked_sat_rec.get? i) (b.tracked_sat_rec.get? i)
      (a0.tracked_sat_rec.get? i) (b0.tracked_sat_rec.get? i)) ∧
  a.tracked_sat_rec.length = b.tracked_sat_rec.length

/-- Two-run relation on one wrap-around counter: both runs added the same
increment (possibly zero). -/
def cntRel (a b a0 b0 m : Nat) : Prop :=
  (a = a0 ∧ b = b0) ∨ ∃ d, a = (a0 + d) % m ∧ b = (b0 + d) % m

/-- Two-run relation on the statistics counters. -/
def StatsRel (a b a0 b0 : Stats) : Prop :=
  cntRel a.encoded_characters b.encoded_characters a0.encoded_characters b0.encoded_characters M32 ∧
  cntRel a.good_sentences b.good_sentences a0.good_sentences b0.good_sentences M16 ∧
  cntRel a.failed_checksum b.failed_checksum a0.failed_checksum b0.failed_checksum M16

set_option maxRecDepth 100000

/-! ## General lemmas about the machine -/

/-- The field dispatcher never writes any fix-state field. -/
theorem dispatch_fixOf (now : Nat) (s : State) : fixOf (dispatch now s) = fixOf s := by
  unfold dispatch
  split <;> dsimp only <;> (try split) <;> rfl

/-- The field dispatcher does not change the parity. -/
theorem dispatch_parity (now : Nat) (s : State) :
    (dispatch now s).core.parity = s.core.parity := by
  unfold dispatch
  split <;> dsimp only <;> (try split) <;> rfl

/-- The field dispatcher does not change the checksum-term flag. -/
theorem dispatch_ict (now : Nat) (s : State) :
    (dispatch now s).core.is_checksum_term = s.core.is_checksum_term := by
  unfold dispatch
  split <;> dsimp only <;> (try split) <;> rfl

/-- The date/time pre-commit does not change the parser core. -/
theorem commitDateTime_core (s : State) : (commitDateTime s).core = s.core := by
  unfold commitDateTime
  split <;> rfl

/-- The ZDA pre-commit does not change the parser core. -/
theorem commitZDA_core (s : State) : (commitZDA s).core = s.core := by
  unfold commitZDA
  split <;> rfl

/-- The data-good commit does not change the parser core. -/
theorem commitGood_core (s : State) : (commitGood s).core = s.core := by
  unfold commitGood
  dsimp only
  split <;> (try split) <;> (try split) <;> (try split) <;> rfl

/-- On a checksum term, `term_complete` does not change the parser core. -/
theorem term_complete_core_ict (now : Nat) (s : State)
    (h1 : s.core.is_checksum_term = true) :
    (term_complete now s).2.core = s.core := by
  unfold term_complete
  simp only [h1, if_true]
  split
  · split <;> simp [commitGood_core, commitZDA_core, commitDateTime_core]
  · rfl

/-- `term_complete` does not change the parity. -/
theorem term_complete_parity (now : Nat) (s : State) :
    (term_complete now s).2.core.parity = s.core.parity := by
  cases hb : s.core.is_checksum_term
  · unfold term_complete
    simp only [hb, Bool.false_eq_true, if_false]
    repeat' split
    all_goals simp [dispatch_parity]
  · rw [term_complete_core_ict now s hb]

/-- `term_complete` does not change the checksum-term flag. -/
theorem term_complete_ict (now : Nat) (s : State) :
    (term_complete now s).2.core.is_checksum_term = s.core.is_checksum_term := by
  cases hb : s.core.is_checksum_term
  · unfold term_complete
    simp only [hb, Bool.false_eq_true, if_false]
    repeat' split
    all_goals simp [dispatch_ict, hb]
  · rw [term_complete_core_ict now s hb]
    exact hb

/-- Unless it is evaluating a checksum term whose transmitted checksum
equals the parity, `term_complete` returns `false` and leaves every
fix-state field unchanged. -/
theorem term_complete_fixOf (now : Nat) (s : State)
    (h : ¬ (s.core.is_checksum_term = true ∧ checksumOfTerm s.core.term = s.core.parity)) :
    (term_complete now s).1 = false ∧ fixOf (term_complete now s).2 = fixOf s := by
  unfold term_complete
  cases hb : s.core.is_checksum_term
  · simp only [hb, Bool.false_eq_true, if_false]
    repeat' split
    all_goals refine ⟨rfl, ?_⟩
    all_goals first | rfl | exact dispatch_fixOf now s
  · have h2 : ¬ checksumOfTerm s.core.term = s.core.parity := fun hc => h ⟨hb, hc⟩
    simp [hb, h2, fixOf]

/-- If the checksum-and-length side conditions fail, closing a term
returns `false` and leaves every fix-state field unchanged. -/
theorem closeTerm_fixOf (now : Nat) (s : State) (c : Nat)
    (h : ¬ (s.core.term.length < 15 ∧ s.core.is_checksum_term = true ∧
            checksumOfTerm s.core.term = s.core.parity)) :
    (closeTerm now s c).1 = false ∧ fixOf (closeTerm now s c).2 = fixOf s := by
  unfold closeTerm
  dsimp only
  split
  · case isTrue hlen =>
    have h2 : ¬ (s.core.is_checksum_term = true ∧ checksumOfTerm s.core.term = s.core.parity) :=
      fun hc => h ⟨hlen, hc.1, hc.2⟩
    exact ⟨(term_complete_fixOf now s h2).1, (term_complete_fixOf now s h2).2⟩
  · exact ⟨rfl, rfl⟩

/-- A step that does not pass a checksum returns `false` and leaves every
fix-state field unchanged. -/
theorem encode_fixOf (now : Nat) (s : State) (c : Nat) (h : ¬ checksumPassed s c) :
    (encode now s c).1 = false ∧ fixOf (encode now s c).2 = fixOf s := by
  unfold encode
  by_cases h44 : c = 44
  · subst h44
    rw [if_pos rfl]
    apply closeTerm_fixOf
    rintro ⟨hl, hi, hc⟩
    exact h ⟨Or.inl rfl, hl, hi, by simpa using hc⟩
  · by_cases h13 : c = 13 ∨ c = 10 ∨ c = 42
    · rw [if_neg h44, if_pos h13]
      apply closeTerm_fixOf
      rintro ⟨hl, hi, hc⟩
      refine h ⟨Or.inr h13, hl, hi, ?_⟩
      rw [if_neg h44]
      exact hc
    · by_cases h36 : c = 36
      · subst h36
        rw [if_neg h44, if_neg h13, if_pos rfl]
        exact ⟨rfl, rfl⟩
      · rw [if_neg h44, if_neg h13, if_neg h36]
        dsimp only
        split <;> split <;> exact ⟨rfl, rfl⟩

/-- Feeding characters none of which passes a checksum leaves every
fix-state field unchanged. -/
theorem run_fixOf (now : Nat) (cs : List Nat) (s : State)
    (h : passAlong now s cs = false) :
    fixOf (run now s cs) = fixOf s := by
  induction cs generalizing s with
  | nil => rfl
  | cons c r ih =>
    rw [passAlong] at h
    simp only [Bool.or_eq_false_iff, decide_eq_false_iff_not] at h
    rw [run]
    calc fixOf (run now (encode now s c).2 r) = fixOf (encode now s c).2 := ih _ h.2
      _ = fixOf s := (encode_fixOf now s c h.1).2

/-- Equal fix states have equal position/velocity parts. -/
theorem posVelOf_of_fixOf {a b : State} (h : fixOf a = fixOf b) :
    posVelOf a = posVelOf b :=
  congrArg (fun f : Fix =>
    (f.latitude, f.longitude, f.altitude, f.speed, f.course, f.hdop, f.numsats,
     f.last_position_fix)) h

/-- The date/time pre-commit does not touch position/velocity fields. -/
theorem commitDateTime_posVel (s : State) : posVelOf (commitDateTime s) = posVelOf s := by
  unfold commitDateTime
  split <;> rfl

/-- The ZDA pre-commit does not touch position/velocity fields. -/
theorem commitZDA_posVel (s : State) : posVelOf (commitZDA s) = posVelOf s := by
  unfold commitZDA
  split <;> rfl

/-- On a checksum term, `term_complete` either reports a validated sentence
or leaves the position/velocity fields unchanged. -/
theorem term_complete_true_or_posVel (now : Nat) (s : State)
    (h1 : s.core.is_checksum_term = true) :
    (term_complete now s).1 = true ∨ posVelOf (term_complete now s).2 = posVelOf s := by
  unfold term_complete
  simp only [h1, if_true]
  split
  · split
    · exact Or.inl rfl
    · exact Or.inr (by rw [commitZDA_posVel, commitDateTime_posVel])
  · exact Or.inr rfl

/-- A term close on a checksum term that reports `false` leaves the
position/velocity fields unchanged. -/
theorem closeTerm_false_posVel (now : Nat) (s : State) (c : Nat)
    (hict : s.core.is_checksum_term = true) (h : (closeTerm now s c).1 = false) :
    posVelOf (closeTerm now s c).2 = posVelOf s := by
  unfold closeTerm at h ⊢
  dsimp only at h ⊢
  by_cases hl : s.core.term.length < 15
  · rw [if_pos hl] at h ⊢
    rcases term_complete_true_or_posVel now s hict with ht | hpv
    · rw [ht] at h
      cases h
    · exact hpv
  · rw [if_neg hl] at h ⊢
    rfl

/-- Any `encode` call that returns `false` leaves the position/velocity
fields unchanged. -/
theorem encode_false_posVel (now : Nat) (s : State) (c : Nat)
    (h : (encode now s c).1 = false) :
    posVelOf (encode now s c).2 = posVelOf s := by
  by_cases hp : checksumPassed s c
  · obtain ⟨hcs, hlen, hict, hsum⟩ := hp
    unfold encode at h ⊢
    rcases hcs with h44 | h13 | h10 | h42
    · subst h44
      rw [if_pos rfl] at h ⊢
      exact closeTerm_false_posVel now _ 44 hict h
    · subst h13
      rw [if_neg (by decide), if_pos (by decide)] at h ⊢
      exact closeTerm_false_posVel now _ 13 hict h
    · subst h10
      rw [if_neg (by decide), if_pos (by decide)] at h ⊢
      exact closeTerm_false_posVel now _ 10 hict h
    · subst h42
      rw [if_neg (by decide), if_pos (by decide)] at h ⊢
      exact closeTerm_false_posVel now _ 42 hict h
  · exact posVelOf_of_fixOf (encode_fixOf now s c hp).2

/-- **C9** (amended).  Immediately after construction and as long as no
checksum evaluation has ever succeeded (no ingested sentence has matched
its transmitted checksum), every accessor returns its invalid sentinel:
`get_position` returns
`GPS_INVALID_ANGLE`/`GPS_INVALID_ANGLE`/`GPS_INVALID_AGE`, `get_datetime`
returns `GPS_INVALID_DATE`/`GPS_INVALID_TIME`/`GPS_INVALID_AGE`, and
`altitude`/`speed`/`course`/`hdop`/`satellites` return their sentinels.
Taking the empty character list gives the freshly-constructed case.  (The
original guard, until a sentence *validates*, is refuted by the
counterexample below: a checksum-matching RMC whose status `V` keeps the
data-good flag down never validates, yet promotes the staged time.) -/
theorem C9_sentinels_before_first_checksum_match (cs : List Nat) (now nowr : Nat)
    (h : passAlong now initState cs = false) :
    get_position nowr (run now initState cs) =
      ((GPS_INVALID_ANGLE : Int), (GPS_INVALID_ANGLE : Int), GPS_INVALID_AGE) ∧
    get_datetime nowr (run now initState cs) =
      (GPS_INVALID_DATE, GPS_INVALID_TIME, GPS_INVALID_AGE) ∧
    altitude (run now initState cs) = (GPS_INVALID_ALTITUDE : Int) ∧
    speed (run now initState cs) = GPS_INVALID_SPEED ∧
    course (run now initState cs) = GPS_INVALID_ANGLE ∧
    hdop (run now initState cs) = GPS_INVALID_HDOP ∧
    satellites (run now initState cs) = GPS_INVALID_SATELLITES := by
  have hf := run_fixOf now cs initState h
  simp only [fixOf, Fix.mk.injEq] at hf
  obtain ⟨ht, hd, hla, hlo, hal, hsp, hco, hhd, hnu, hyr, hmo, hdy, hltf, hlpf, hldf⟩ := hf
  refine ⟨?_, ?_, ?_, ?_, ?_, ?_, ?_⟩
  · unfold get_position
    rw [hla, hlo, hlpf]
    rfl
  · unfold get_datetime
    rw [hd, ht, hltf]
    rfl
  · unfold altitude
    rw [hal]
    rfl
  · unfold speed
    rw [hsp]
    rfl
  · unfold course
    rw [hco]
    rfl
  · unfold hdop
    rw [hhd]
    rfl
  · unfold satellites
    rw [hnu]
    rfl

/-- Witness for C9 at a concrete input: a sentence whose checksum term
`FF` does not match the parity never validates and all accessors still
report the sentinels. -/
theorem C9_witness :
    get_position 5 (run 7 initState (bytes "$GPGGA,045104.000,3014.1985,N*FF\r")) =
      ((GPS_INVALID_ANGLE : Int), (GPS_INVALID_ANGLE : Int), GPS_INVALID_AGE) ∧
    get_datetime 5 (run 7 initState (bytes "$GPGGA,045104.000,3014.1985,N*FF\r")) =
      (GPS_INVALID_DATE, GPS_INVALID_TIME, GPS_INVALID_AGE) ∧
    altitude (run 7 initState (bytes "$GPGGA,045104.000,3014.1985,N*FF\r")) = (GPS_INVALID_ALTITUDE : Int) ∧
    speed (run 7 initState (bytes "$GPGGA,045104.000,3014.1985,N*FF\r")) = GPS_INVALID_SPEED ∧
    course (run 7 initState (bytes "$GPGGA,045104.000,3014.1985,N*FF\r")) = GPS_INVALID_ANGLE ∧
    hdop (run 7 initState (bytes "$GPGGA,045104.000,3014.1985,N*FF\r")) = GPS_INVALID_HDOP ∧
    satellites (run 7 initState (bytes "$GPGGA,045104.000,3014.1985,N*FF\r")) = GPS_INVALID_SATELLITES :=
  C9_sentinels_before_first_checksum_match (bytes "$GPGGA,045104.000,3014.1985,N*FF\r") 7 5 (by decide)

/-- Counterexample to the original C9: along this stream no `encode` call
ever returns `true` (the only checksum evaluation matches, but the RMC
status `V` keeps the data-good flag down, so no sentence validates), yet
afterwards `get_datetime` no longer reports the date/time/age sentinels:
the staged 04:51:03.00 was promoted into the time field. -/
theorem C9_counterexample_promotion_without_validation :
    anyTrue 0 initState (bytes "$GPRMC,045103.000,V,3014.1984,N,09749.2872,W,0.67,161.46,030913,,,A*6B" ++ [13]) = false ∧
    get_datetime 3 (run 0 initState (bytes "$GPRMC,045103.000,V,3014.1984,N,09749.2872,W,0.67,161.46,030913,,,A*6B" ++ [13]))
      ≠ (GPS_INVALID_DATE, GPS_INVALID_TIME, GPS_INVALID_AGE) :=
  ⟨by decide, by decide⟩

/-- **C2, amended.**  A call of `encode` that returns `false` leaves the
position/velocity part of the Fix State (latitude, longitude, altitude,
speed, course, hdop, numsats, last position fix) unchanged; and unless the
call evaluates a checksum term whose transmitted checksum matches the
parity, it leaves the whole Fix State unchanged.  (As the counterexample
shows, a false-returning call *can* promote the staged date/time fields:
this happens exactly on a matching checksum evaluation of an RMC/PUBX-04/
ZDA sentence whose data-good flag is down.) -/
theorem C2_amended_false_return_effects (now : Nat) (s : State) (c : Nat) :
    ((encode now s c).1 = false → posVelOf (encode now s c).2 = posVelOf s) ∧
    (¬ checksumPassed s c → fixOf (encode now s c).2 = fixOf s) :=
  ⟨fun h => encode_false_posVel now s c h, fun h => (encode_fixOf now s c h).2⟩

/-- Witness for the amended C2 at a concrete input (an ordinary character
fed to a fresh parser). -/
theorem C2_amended_witness :
    posVelOf (encode 0 initState 120).2 = posVelOf initState ∧
    fixOf (encode 0 initState 120).2 = fixOf initState :=
  ⟨(C2_amended_false_return_effects 0 initState 120).1 (by decide),
   (C2_amended_false_return_effects 0 initState 120).2 (by decide)⟩

/-- **C3.**  When the transmitted checksum of the checksum term matches the
accumulated parity: RMC and PUBX-04 sentences promote the staged time and
date even when the data-good flag is false; ZDA sentences promote the
staged time and cracked day/month/year even when the data-good flag is
false; and when the data-good flag is true `term_complete` returns `true`
and additionally promotes, for RMC: time/date/latitude/longitude/speed/
course, for GGA: altitude/time/latitude/longitude/numsats/hdop, and for
PUBX-00: time/latitude/longitude/speed/course/altitude/numsats/hdop. -/
theorem C3_checksum_match_promotions (now : Nat) (s : State)
    (hict : s.core.is_checksum_term = true)
    (hsum : checksumOfTerm s.core.term = s.core.parity) :
    ((s.core.sentence_type = SENT_GPRMC ∨
        (s.core.sentence_type = SENT_PUBX ∧ s.core.ubx_type = 4)) →
      (term_complete now s).2.out.time = s.core.new_time ∧
      (term_complete now s).2.out.date = s.core.new_date) ∧
    (s.core.sentence_type = SENT_GPZDA →
      (term_complete now s).2.out.time = s.core.new_time ∧
      (term_complete now s).2.out.day = s.core.new_day ∧
      (term_complete now s).2.out.month = s.core.new_month ∧
      (term_complete now s).2.out.year = s.core.new_year) ∧
    (s.core.gps_data_good = true → (term_complete now s).1 = true) ∧
    (s.core.gps_data_good = true → s.core.sentence_type = SENT_GPRMC →
      (term_complete now s).2.out.time = s.core.new_time ∧
      (term_complete now s).2.out.date = s.core.new_date ∧
      (term_complete now s).2.out.latitude = s.core.new_latitude ∧
      (term_complete now s).2.out.longitude = s.core.new_longitude ∧
      (term_complete now s).2.out.speed = s.core.new_speed ∧
      (term_complete now s).2.out.course = s.core.new_course) ∧
    (s.core.gps_data_good = true → s.core.sentence_type = SENT_GPGGA →
      (term_complete now s).2.out.altitude = s.core.new_altitude ∧
      (term_complete now s).2.out.time = s.core.new_time ∧
      (term_complete now s).2.out.latitude = s.core.new_latitude ∧
      (term_complete now s).2.out.longitude = s.core.new_longitude ∧
      (term_complete now s).2.out.numsats = s.core.new_numsats ∧
      (term_complete now s).2.out.hdop = s.core.new_hdop) ∧
    (s.core.gps_data_good = true → s.core.sentence_type = SENT_PUBX →
        s.core.ubx_type = 0 →
      (term_complete now s).2.out.time = s.core.new_time ∧
      (term_complete now s).2.out.latitude = s.core.new_latitude ∧
      (term_complete now s).2.out.longitude = s.core.new_longitude ∧
      (term_complete now s).2.out.speed = s.core.new_speed ∧
      (term_complete now s).2.out.course = s.core.new_course ∧
      (term_complete now s).2.out.altitude = s.core.new_altitude ∧
      (term_complete now s).2.out.numsats = s.core.new_numsats ∧
      (term_complete now s).2.out.hdop = s.core.new_hdop) := by
  refine ⟨?_, ?_, ?_, ?_, ?_, ?_⟩
  · rintro (hst | ⟨hst, hub⟩)
    · cases hg : s.core.gps_data_good <;>
        simp [term_complete, commitDateTime, commitZDA, commitGood, hict, hsum, hg, hst,
              SENT_GPRMC, SENT_GPZDA, SENT_GPGGA, SENT_PUBX]
    · cases hg : s.core.gps_data_good <;>
        simp [term_complete, commitDateTime, commitZDA, commitGood, hict, hsum, hg, hst,
              hub, SENT_GPRMC, SENT_GPZDA, SENT_GPGGA, SENT_PUBX]
  · intro hst
    cases hg : s.core.gps_data_good <;>
      simp [term_complete, commitDateTime, commitZDA, commitGood, hict, hsum, hg, hst,
            SENT_GPRMC, SENT_GPZDA, SENT_GPGGA, SENT_PUBX]
  · intro hg
    simp [term_complete, hict, hsum, hg, commitGood_core, commitZDA_core, commitDateTime_core]
  · intro hg hst
    simp [term_complete, commitDateTime, commitZDA, commitGood, hict, hsum, hg, hst,
          SENT_GPRMC, SENT_GPZDA, SENT_GPGGA, SENT_PUBX]
  · intro hg hst
    simp [term_complete, commitDateTime, commitZDA, commitGood, hict, hsum, hg, hst,
          SENT_GPRMC, SENT_GPZDA, SENT_GPGGA, SENT_PUBX]
  · intro hg hst hub
    simp [term_complete, commitDateTime, commitZDA, commitGood, hict, hsum, hg, hst, hub,
          SENT_GPRMC, SENT_GPZDA, SENT_GPGGA, SENT_PUBX]

/-- Witness for C3 at a concrete input: the parser state just before the
terminator of a known-good RMC sentence satisfies the hypotheses, and the
checksum evaluation validates the sentence. -/
theorem C3_witness :
    (term_complete 0 (run 0 initState (bytes "$GPRMC,045103.000,A,3014.1984,N,09749.2872,W,0.67,161.46,030913,,,A*7C"))).1 = true ∧
    (term_complete 0 (run 0 initState (bytes "$GPRMC,045103.000,A,3014.1984,N,09749.2872,W,0.67,161.46,030913,,,A*7C"))).2.out.time =
      (run 0 initState (bytes "$GPRMC,045103.000,A,3014.1984,N,09749.2872,W,0.67,161.46,030913,,,A*7C")).core.new_time :=
  ⟨(C3_checksum_match_promotions 0
      (run 0 initState (bytes "$GPRMC,045103.000,A,3014.1984,N,09749.2872,W,0.67,161.46,030913,,,A*7C"))
      (by decide) (by decide)).2.2.1 (by decide),
   ((C3_checksum_match_promotions 0
      (run 0 initState (bytes "$GPRMC,045103.000,A,3014.1984,N,09749.2872,W,0.67,161.46,030913,,,A*7C"))
      (by decide) (by decide)).1 (Or.inl (by decide))).1⟩

/-- Entries below the loop cursor are untouched by the slot-clearing loop. -/
theorem resetSlotsAux_get?_lt (count : Nat) (l : List Nat) (x j : Nat) (h : j < x) :
    (resetSlotsAux l x count).get? j = l.get? j := by
  induction count generalizing l x with
  | zero => rfl
  | succ k ih =>
    rw [resetSlotsAux, ih (l.set x 0) (x + 1) (Nat.lt_succ_of_lt h),
        List.get?_set_ne 0 l (Nat.ne_of_gt h)]

/-- Entries at or past `x + count` are untouched by the slot-clearing loop. -/
theorem resetSlotsAux_get?_ge (count : Nat) (l : List Nat) (x j : Nat) (h : x + count ≤ j) :
    (resetSlotsAux l x count).get? j = l.get? j := by
  induction count generalizing l x with
  | zero => rfl
  | succ k ih =>
    rw [resetSlotsAux, ih (l.set x 0) (x + 1) (by omega),
        List.get?_set_ne 0 l (by omega)]

/-- Entries inside the cleared window read 0 after the slot-clearing loop. -/
theorem resetSlotsAux_get?_in (count : Nat) (l : List Nat) (x j : Nat)
    (h1 : x ≤ j) (h2 : j < x + count) (h3 : j < l.length) :
    (resetSlotsAux l x count).get? j = some 0 := by
  induction count generalizing l x with
  | zero => omega
  | succ k ih =>
    rw [resetSlotsAux]
    rcases Nat.eq_or_lt_of_le h1 with hxj | hxj
    · subst hxj
      rw [resetSlotsAux_get?_lt k (l.set x 0) (x + 1) x (Nat.lt_succ_self x),
          List.get?_set_eq_of_lt 0 h3]
    · exact ih (l.set x 0) (x + 1) hxj (by omega) (by simpa using h3)

/-- `ucharOfInt` always produces a byte. -/
theorem ucharOfInt_lt (i : Int) : ucharOfInt i < 256 := by
  unfold ucharOfInt
  have h1 := Int.emod_lt_of_pos i (by decide : (0 : Int) < 256)
  have h2 := Int.emod_nonneg i (by decide : (256 : Int) ≠ 0)
  have h3 := Int.toNat_of_nonneg h2
  omega

/-- For an in-range PRN and a byte strength, the packed satellite record is
exactly `prn <<< 8 ||| strength <<< 1`. -/
theorem satRecVal_small (p stren : Nat) (hp : p < 16777216) (hs : stren < 256) :
    satRecVal (p : Nat) stren = (p <<< 8) ||| (stren <<< 1) := by
  unfold satRecVal
  have h1 : ((p : Int) % ((M32 : Nat) : Int)).toNat = p := by
    rw [Int.emod_eq_of_lt (by positivity) (by norm_num [M32]; omega)]
    simp
  rw [h1]
  have hp8 : p <<< 8 < 2 ^ 32 := by
    rw [Nat.shiftLeft_eq]
    norm_num
    omega
  have hs1 : stren <<< 1 < 2 ^ 32 := by
    rw [Nat.shiftLeft_eq]
    omega
  have h2 : (p <<< 8) ||| (stren <<< 1) < 4294967296 := by
    have := Nat.or_lt_two_pow (n := 32) hp8 hs1
    simpa using this
  simpa [M32] using Nat.mod_eq_of_lt h2

/-- **C6.**  For a GSV sentence (GPGSV or GLGSV): completing field ordinal
2 with message-sequence index 1 clears all 12 slots of that constellation
(slots 0–11 for GPS, 12–23 for GLONASS) and sets the satellite write cursor
to the constellation base, before any satellite record of the sequence is
written; completing a strength field (ordinals 7/11/15/19) whose value
parses to 0 leaves the targeted slot equal to 0, and a non-zero strength
`s` with staged PRN `p` stores exactly `(p <<< 8) ||| (s <<< 1)` in the
targeted slot. -/
theorem C6_gsv_reset_and_strength (now : Nat) (s : State)
    (hict : s.core.is_checksum_term = false)
    (hst : s.core.sentence_type = SENT_GPGSV ∨ s.core.sentence_type = SENT_GLGSV)
    (hlen : s.out.tracked_sat_rec.length = 24)
    (hterm0 : termAt s.core.term 0 ≠ 0) :
    (s.core.term_number = 2 → atoi s.core.term = 1 →
      (∀ i, i < 12 →
        (term_complete now s).2.out.tracked_sat_rec.get?
          ((if s.core.sentence_type = SENT_GPGSV then 0 else 12) + i) = some 0) ∧
      (term_complete now s).2.core.sat_index =
        (if s.core.sentence_type = SENT_GPGSV then 0 else 12)) ∧
    ((s.core.term_number = 7 ∨ s.core.term_number = 11 ∨ s.core.term_number = 15 ∨
        s.core.term_number = 19) →
      gsvStrengthIndex s.core < 24 →
      (ucharOfInt (atoi s.core.term) = 0 →
        (term_complete now s).2.out.tracked_sat_rec.get? (gsvStrengthIndex s.core) = some 0) ∧
      (∀ p : Nat, p < 16777216 → s.core.tracked_satellites_index = (p : Int) →
        ucharOfInt (atoi s.core.term) ≠ 0 →
        (term_complete now s).2.out.tracked_sat_rec.get? (gsvStrengthIndex s.core) =
          some ((p <<< 8) ||| (ucharOfInt (atoi s.core.term) <<< 1)))) := by
  have hpath : s.core.term_number ≠ 0 → (term_complete now s).2 = dispatch now s := by
    intro htn0
    unfold term_complete
    rcases hst with h | h <;>
      simp [hict, htn0, h, SENT_PUBX, SENT_OTHER, SENT_GPGSV, SENT_GLGSV, hterm0]
  constructor
  · intro htn hatoi
    rcases hst with h4 | h5
    · have hkey : dispatchKey s.core = 130 := by
        simp [dispatchKey, h4, htn, SENT_GPGSV, SENT_PUBX, M32]
      have hdisp : dispatch now s = { s with core := { s.core with sat_index := 0 }, out := { s.out with tracked_sat_rec := resetSlots s.out.tracked_sat_rec 0 } } := by
        unfold dispatch
        rw [hkey]
        simp [hatoi, ucharOfInt, h4, SENT_GPGSV, SENT_GLGSV, resetSlots]
      rw [hpath (by rw [htn]; decide), hdisp]
      simp only [h4, SENT_GPGSV, if_pos rfl]
      refine ⟨fun i hi => ?_, rfl⟩
      exact resetSlotsAux_get?_in 12 s.out.tracked_sat_rec 0 (0 + i) (by omega) (by omega)
        (by omega)
    · have hkey : dispatchKey s.core = 162 := by
        simp [dispatchKey, h5, htn, SENT_GLGSV, SENT_PUBX, M32]
      have hdisp : dispatch now s = { s with core := { s.core with sat_index := 12 }, out := { s.out with tracked_sat_rec := resetSlots s.out.tracked_sat_rec 12 } } := by
        unfold dispatch
        rw [hkey]
        simp [hatoi, ucharOfInt, h5, SENT_GPGSV, SENT_GLGSV, resetSlots]
      rw [hpath (by rw [htn]; decide), hdisp]
      rw [if_neg (by rw [h5]; decide : ¬ s.core.sentence_type = SENT_GPGSV)]
      refine ⟨fun i hi => ?_, rfl⟩
      exact resetSlotsAux_get?_in 12 s.out.tracked_sat_rec 12 (12 + i) (by omega) (by omega)
        (by omega)
  · intro htn hidx
    have hkey : dispatchKey s.core = 135 ∨ dispatchKey s.core = 139 ∨
        dispatchKey s.core = 143 ∨ dispatchKey s.core = 147 ∨
        dispatchKey s.core = 167 ∨ dispatchKey s.core = 171 ∨
        dispatchKey s.core = 175 ∨ dispatchKey s.core = 179 := by
      rcases hst with h | h <;> rcases htn with t | t | t | t <;>
        simp [dispatchKey, h, t, SENT_GPGSV, SENT_GLGSV, SENT_PUBX, M32]
    have htn0 : s.core.term_number ≠ 0 := by
      rcases htn with h | h | h | h <;> rw [h] <;> decide
    constructor
    · intro hzero
      have hdisp : dispatch now s = { s with out := { s.out with tracked_sat_rec := s.out.tracked_sat_rec.set (gsvStrengthIndex s.core) 0 } } := by
        unfold dispatch
        rcases hkey with hk | hk | hk | hk | hk | hk | hk | hk <;> rw [hk] <;>
          simp [hzero]
      rw [hpath htn0, hdisp]
      exact List.get?_set_eq_of_lt 0 (by omega)
    · intro p hp hprn hnz
      have hdisp : dispatch now s = { s with out := { s.out with tracked_sat_rec := (s.out.tracked_sat_rec.set (gsvStrengthIndex s.core) (satRecVal s.core.tracked_satellites_index (ucharOfInt (atoi s.core.term)))) } } := by
        unfold dispatch
        rcases hkey with hk | hk | hk | hk | hk | hk | hk | hk <;> rw [hk] <;>
          simp [hnz]
      rw [hpath htn0, hdisp, hprn,
          satRecVal_small p (ucharOfInt (atoi s.core.term)) hp (ucharOfInt_lt _)]
      exact List.get?_set_eq_of_lt _ (by omega)

/-- Witness for C6 at concrete inputs: after `$GPGSV,3,1` the sequence
restart clears slot 0 and resets the cursor; after
`$GPGSV,3,1,12,07,22,100,45` the pending strength term stores
`7 <<< 8 ||| 45 <<< 1 = 1882` into slot 0. -/
theorem C6_witness :
    (term_complete 0 (run 0 initState (bytes "$GPGSV,3,1"))).2.out.tracked_sat_rec.get? 0 = some 0 ∧
    (term_complete 0 (run 0 initState (bytes "$GPGSV,3,1"))).2.core.sat_index = 0 ∧
    (term_complete 0 (run 0 initState (bytes "$GPGSV,3,1,12,07,22,100,45"))).2.out.tracked_sat_rec.get? 0 = some 1882 := by
  refine ⟨?_, ?_, ?_⟩
  · have h := ((C6_gsv_reset_and_strength 0 (run 0 initState (bytes "$GPGSV,3,1"))
      (by decide) (Or.inl (by decide)) (by decide) (by decide)).1 (by decide) (by decide)).1
      0 (by decide)
    rwa [show (if (run 0 initState (bytes "$GPGSV,3,1")).core.sentence_type = SENT_GPGSV then (0 : Nat) else 12) + 0 = 0 from by decide] at h
  · have h := ((C6_gsv_reset_and_strength 0 (run 0 initState (bytes "$GPGSV,3,1"))
      (by decide) (Or.inl (by decide)) (by decide) (by decide)).1 (by decide) (by decide)).2
    exact h.trans (by decide)
  · have h := ((C6_gsv_reset_and_strength 0 (run 0 initState (bytes "$GPGSV,3,1,12,07,22,100,45"))
      (by decide) (Or.inl (by decide)) (by decide) (by decide)).2 (Or.inl (by decide))
      (by decide)).2 7 (by decide) (by decide) (by decide)
    rw [show gsvStrengthIndex (run 0 initState (bytes "$GPGSV,3,1,12,07,22,100,45")).core = 0 from by decide] at h
    exact h.trans (by decide)

/-- An ordinary character (not a terminator, not `'$'`) appends to the
field buffer while capacity remains, folds into the parity unless inside
the checksum field, and changes nothing else. -/
theorem encode_ordinary (now : Nat) (s : State) (c : Nat)
    (h44 : c ≠ 44) (h13 : c ≠ 13) (h10 : c ≠ 10) (h42 : c ≠ 42) (h36 : c ≠ 36) :
    encode now s c = (false, { s with
      core := { s.core with
        term := if s.core.term.length < 14 then s.core.term ++ [c] else s.core.term,
        parity := if s.core.is_checksum_term then s.core.parity else (s.core.parity ^^^ c) % 256 },
      stats := { s.stats with encoded_characters := (s.stats.encoded_characters + 1) % M32 } }) := by
  unfold encode
  rw [if_neg h44, if_neg (by simp [h13, h10, h42]), if_neg h36]
  dsimp only
  split <;> dsimp only <;> split <;> rfl

/-- Feeding a concatenation feeds the pieces in order. -/
theorem run_append (now : Nat) (l1 l2 : List Nat) (s : State) :
    run now s (l1 ++ l2) = run now (run now s l1) l2 := by
  induction l1 generalizing s with
  | nil => rfl
  | cons c r ih => rw [List.cons_append, run, run, ih]

/-- A `','` terminator folds the comma into the parity, closes the term,
and starts a non-checksum field. -/
theorem encode_comma (now : Nat) (s : State) (hlen : s.core.term.length < 15) :
    (encode now s 44).2.core.parity = (s.core.parity ^^^ 44) % 256 ∧
    (encode now s 44).2.core.is_checksum_term = false ∧
    (encode now s 44).2.core.term = [] := by
  unfold encode closeTerm
  rw [if_pos rfl]
  dsimp only
  rw [if_pos (by simpa using hlen)]
  refine ⟨?_, by simp, rfl⟩
  simpa using term_complete_parity now _

/-- A `'*'` terminator closes the term without touching the parity and
starts the checksum field. -/
theorem encode_star (now : Nat) (s : State) (hlen : s.core.term.length < 15) :
    (encode now s 42).2.core.parity = s.core.parity ∧
    (encode now s 42).2.core.is_checksum_term = true ∧
    (encode now s 42).2.core.term = [] := by
  unfold encode closeTerm
  rw [if_neg (by decide), if_pos (by decide)]
  dsimp only
  rw [if_pos (by simpa using hlen)]
  refine ⟨?_, by simp, rfl⟩
  simpa using term_complete_parity now _

/-- Running a field's worth of ordinary characters: the buffer keeps the
first 14 of them, every one of them is folded into the parity unless the
field is the checksum field, and nothing else changes. -/
theorem run_ordinary_field (now : Nat) (cs : List Nat) : ∀ (s : State),
    (∀ c ∈ cs, c < 256 ∧ c ≠ 36 ∧ c ≠ 42 ∧ c ≠ 44 ∧ c ≠ 13 ∧ c ≠ 10) →
    s.core.term.length ≤ 14 → s.core.parity < 256 →
    (run now s cs).core.term = (s.core.term ++ cs).take 14 ∧
    (run now s cs).core.is_checksum_term = s.core.is_checksum_term ∧
    (run now s cs).core.parity =
      (if s.core.is_checksum_term = true then s.core.parity
       else cs.foldl Nat.xor s.core.parity) ∧
    (run now s cs).core.parity < 256 ∧
    fixOf (run now s cs) = fixOf s := by
  induction cs with
  | nil =>
    intro s hcs hterm hpar
    refine ⟨?_, rfl, ?_, hpar, rfl⟩
    · rw [List.append_nil, List.take_of_length_le hterm]
      rfl
    · split <;> rfl
  | cons c r ih =>
    intro s hcs hterm hpar
    obtain ⟨hlt, h36, h42, h44, h13, h10⟩ := hcs c (List.mem_cons_self c r)
    have hrest := fun c' hc' => hcs c' (List.mem_cons_of_mem c hc')
    have hxor : (s.core.parity ^^^ c) % 256 = s.core.parity ^^^ c :=
      Nat.mod_eq_of_lt (by simpa using Nat.xor_lt_two_pow (n := 8) (by simpa using hpar) (by simpa using hlt))
    have hstep := encode_ordinary now s c h44 h13 h10 h42 h36
    have hXterm : (encode now s c).2.core.term =
        if s.core.term.length < 14 then s.core.term ++ [c] else s.core.term := by
      rw [hstep]
    have hXict : (encode now s c).2.core.is_checksum_term = s.core.is_checksum_term := by
      rw [hstep]
    have hXpar : (encode now s c).2.core.parity =
        if s.core.is_checksum_term = true then s.core.parity else (s.core.parity ^^^ c) % 256 := by
      rw [hstep]
    have hXfix : fixOf (encode now s c).2 = fixOf s := by
      rw [hstep]
      rfl
    have hXtermlen : (encode now s c).2.core.term.length ≤ 14 := by
      rw [hXterm]
      split
      · simp only [List.length_append, List.length_singleton]
        omega
      · exact hterm
    have hXparlt : (encode now s c).2.core.parity < 256 := by
      rw [hXpar]
      split
      · exact hpar
      · exact Nat.mod_lt _ (by decide)
    obtain ⟨ht', hi', hp', hb', hf'⟩ := ih (encode now s c).2 hrest hXtermlen hXparlt
    rw [run]
    refine ⟨?_, ?_, ?_, hb', hf'.trans hXfix⟩
    · rw [ht', hXterm]
      by_cases hl : s.core.term.length < 14
      · rw [if_pos hl, List.append_assoc, List.singleton_append]
      · have hlen14 : s.core.term.length = 14 := Nat.le_antisymm hterm (Nat.not_lt.mp hl)
        have htake : ∀ (l2 : List Nat), (s.core.term ++ l2).take 14 = s.core.term := by
          intro l2
          rw [List.take_append_eq_append_take, hlen14, Nat.sub_self, List.take_zero,
              List.append_nil, ← hlen14, List.take_length]
        rw [if_neg hl, htake r, htake (c :: r)]
    · rw [hi', hXict]
    · rw [hp', hXict, hXpar]
      by_cases hict : s.core.is_checksum_term = true
      · rw [if_pos hict, if_pos hict, if_pos hict]
      · rw [if_neg hict, if_neg hict, if_neg hict, hxor, List.foldl_cons]
        rfl

/-- Running a sentence body (ordinary characters and commas, no `'$'`,
`'*'` or line terminators) from a non-checksum state accumulates the
exclusive-or of every character into the parity and never touches the fix
state. -/
theorem run_body (now : Nat) (body : List Nat) : ∀ (s : State),
    (∀ c ∈ body, c < 256 ∧ c ≠ 36 ∧ c ≠ 42 ∧ c ≠ 13 ∧ c ≠ 10) →
    s.core.is_checksum_term = false → s.core.parity < 256 → s.core.term.length ≤ 14 →
    (run now s body).core.parity = body.foldl Nat.xor s.core.parity ∧
    (run now s body).core.is_checksum_term = false ∧
    (run now s body).core.parity < 256 ∧
    (run now s body).core.term.length ≤ 14 ∧
    fixOf (run now s body) = fixOf s := by
  induction body with
  | nil =>
    intro s _ hict hpar hterm
    exact ⟨rfl, hict, hpar, hterm, rfl⟩
  | cons c r ih =>
    intro s hcs hict hpar hterm
    obtain ⟨hlt, h36, h42, h13, h10⟩ := hcs c (List.mem_cons_self c r)
    have hrest := fun c' hc' => hcs c' (List.mem_cons_of_mem c hc')
    have hxor : (s.core.parity ^^^ c) % 256 = s.core.parity ^^^ c :=
      Nat.mod_eq_of_lt (by simpa using Nat.xor_lt_two_pow (n := 8) (by simpa using hpar) (by simpa using hlt))
    have hnopass : ¬ checksumPassed s c := by
      simp [checksumPassed, hict]
    have hfix : fixOf (encode now s c).2 = fixOf s := (encode_fixOf now s c hnopass).2
    rw [run]
    by_cases h44 : c = 44
    · subst h44
      have hcomma := encode_comma now s (by omega)
      obtain ⟨hp', hi', hb', ht', hf'⟩ := ih (encode now s 44).2 hrest hcomma.2.1
        (by rw [hcomma.1]; exact Nat.mod_lt _ (by decide))
        (by rw [hcomma.2.2]; exact Nat.zero_le 14)
      refine ⟨?_, hi', hb', ht', hf'.trans hfix⟩
      rw [hp', hcomma.1, hxor, List.foldl_cons]
      rfl
    · have hstep := encode_ordinary now s c h44 h13 h10 h42 h36
      have hXict : (encode now s c).2.core.is_checksum_term = false := by
        rw [hstep]
        exact hict
      have hXpar : (encode now s c).2.core.parity = s.core.parity ^^^ c := by
        rw [hstep]
        show (if s.core.is_checksum_term = true then s.core.parity
              else (s.core.parity ^^^ c) % 256) = s.core.parity ^^^ c
        rw [if_neg (by rw [hict]; exact Bool.false_ne_true), hxor]
      have hXterm : (encode now s c).2.core.term.length ≤ 14 := by
        rw [hstep]
        show (if s.core.term.length < 14 then s.core.term ++ [c] else s.core.term).length ≤ 14
        split
        · simp only [List.length_append, List.length_singleton]
          omega
        · exact hterm
      obtain ⟨hp', hi', hb', ht', hf'⟩ := ih (encode now s c).2 hrest hXict
        (by rw [hXpar]; simpa using Nat.xor_lt_two_pow (n := 8) (by simpa using hpar) (by simpa using hlt))
        hXterm
      refine ⟨?_, hi', hb', ht', hf'.trans hfix⟩
      rw [hp', hXpar, List.foldl_cons]
      rfl

/-- The `'$'` sentence-start branch of `encode`: parity cleared, checksum
flag cleared, buffer reset, fix state untouched. -/
theorem encode_dollar_facts (now : Nat) (s : State) :
    (encode now s 36).2.core.parity = 0 ∧
    (encode now s 36).2.core.is_checksum_term = false ∧
    (encode now s 36).2.core.term = [] ∧
    fixOf (encode now s 36).2 = fixOf s := by
  unfold encode
  rw [if_neg (by decide), if_neg (by decide), if_pos rfl]
  exact ⟨rfl, rfl, rfl, rfl⟩

/-- State of the parser after `'$' body '*' cs` (a start marker, a sentence
body free of markers and terminators, the checksum marker, and the ordinary
characters of the checksum field): the parity is the exclusive-or of the
body, the parser is inside the checksum field, the field buffer holds the
first 14 characters of `cs`, and the fix state is untouched. -/
theorem sentence_run_facts (now : Nat) (s : State) (body cs : List Nat)
    (hb : ∀ c ∈ body, c < 256 ∧ c ≠ 36 ∧ c ≠ 42 ∧ c ≠ 13 ∧ c ≠ 10)
    (hcs : ∀ c ∈ cs, c < 256 ∧ c ≠ 36 ∧ c ≠ 42 ∧ c ≠ 44 ∧ c ≠ 13 ∧ c ≠ 10) :
    (run now s (36 :: (body ++ 42 :: cs))).core.parity = body.foldl Nat.xor 0 ∧
    (run now s (36 :: (body ++ 42 :: cs))).core.is_checksum_term = true ∧
    (run now s (36 :: (body ++ 42 :: cs))).core.term = cs.take 14 ∧
    (run now s (36 :: (body ++ 42 :: cs))).core.parity < 256 ∧
    fixOf (run now s (36 :: (body ++ 42 :: cs))) = fixOf s := by
  obtain ⟨hD0, hD1, hD2, hD3⟩ := encode_dollar_facts now s
  rw [run, run_append]
  obtain ⟨hp1, hi1, hb1, ht1, hf1⟩ := run_body now body (encode now s 36).2 hb hD1
    (by rw [hD0]; decide) (by rw [hD2]; exact Nat.zero_le 14)
  have hstar := encode_star now (run now (encode now s 36).2 body) (by omega)
  have hnopass : ¬ checksumPassed (run now (encode now s 36).2 body) 42 := by
    intro hp
    have h := hp.2.2.1
    rw [hi1] at h
    cases h
  have hfixstar := (encode_fixOf now (run now (encode now s 36).2 body) 42 hnopass).2
  rw [run]
  obtain ⟨ht3, hi3, hp3, hb3, hf3⟩ := run_ordinary_field now cs
    (encode now (run now (encode now s 36).2 body) 42).2 hcs
    (by rw [hstar.2.2]; exact Nat.zero_le 14)
    (by rw [hstar.1]; exact hb1)
  refine ⟨?_, ?_, ?_, ?_, ?_⟩
  · rw [hp3, if_pos hstar.2.1, hstar.1, hp1, hD0]
  · rw [hi3, hstar.2.1]
  · rw [ht3, hstar.2.2, List.nil_append]
  · exact hb3
  · exact hf3.trans (hfixstar.trans (hf1.trans hD3))

/-- Reading inside the taken prefix of a C string sees the same bytes. -/
theorem termAt_take (cs : List Nat) (i n : Nat) (h : i < n) :
    termAt (cs.take n) i = termAt cs i := by
  unfold termAt
  simp [List.getD_eq_getElem?_getD, List.getElem?_take, h]

/-- The transmitted checksum only reads the first two characters, so the
14-character buffer truncation does not affect it. -/
theorem checksumOfTerm_take (cs : List Nat) :
    checksumOfTerm (cs.take 14) = checksumOfTerm cs := by
  unfold checksumOfTerm
  rw [termAt_take cs 0 14 (by decide), termAt_take cs 1 14 (by decide)]

/-- **C5.**  At the moment the checksum term is evaluated, the accumulated
parity is the exclusive-or of every character that arrived strictly between
the `'$'` start marker and the `'*'` checksum marker (commas included, the
markers and the checksum field's own characters excluded). -/
theorem C5_parity_is_xor_of_body (now : Nat) (s : State) (body cs : List Nat)
    (hb : ∀ c ∈ body, c < 256 ∧ c ≠ 36 ∧ c ≠ 42 ∧ c ≠ 13 ∧ c ≠ 10)
    (hcs : ∀ c ∈ cs, c < 256 ∧ c ≠ 36 ∧ c ≠ 42 ∧ c ≠ 44 ∧ c ≠ 13 ∧ c ≠ 10) :
    (run now s (36 :: (body ++ 42 :: cs))).core.parity = body.foldl Nat.xor 0 ∧
    (run now s (36 :: (body ++ 42 :: cs))).core.is_checksum_term = true :=
  ⟨(sentence_run_facts now s body cs hb hcs).1, (sentence_run_facts now s body cs hb hcs).2.1⟩

/-- Witness for C5 at a concrete input: after `$GPRMC,05*7C` the parity is
the exclusive-or of `GPRMC,05`, namely 0x65. -/
theorem C5_witness :
    (run 0 initState (36 :: (bytes "GPRMC,05" ++ 42 :: bytes "7C"))).core.parity =
      (bytes "GPRMC,05").foldl Nat.xor 0 ∧
    (run 0 initState (36 :: (bytes "GPRMC,05" ++ 42 :: bytes "7C"))).core.is_checksum_term = true :=
  C5_parity_is_xor_of_body 0 initState (bytes "GPRMC,05") (bytes "7C") (by decide) (by decide)

/-- **C7.**  Within one field, the buffer stores at most the first 14
ordinary characters (the model's buffer list *is* the stored, NUL-terminated
content); every character beyond the 14th is dropped from the buffer but
every character of the field is still folded into the parity whenever the
field is not the checksum field (and the parity is untouched when it is). -/
theorem C7_field_buffer_truncation (now : Nat) (s : State) (cs : List Nat)
    (hcs : ∀ c ∈ cs, c < 256 ∧ c ≠ 36 ∧ c ≠ 42 ∧ c ≠ 44 ∧ c ≠ 13 ∧ c ≠ 10)
    (hstart : s.core.term = []) (hpar : s.core.parity < 256) :
    (run now s cs).core.term = cs.take 14 ∧
    (run now s cs).core.parity =
      (if s.core.is_checksum_term = true then s.core.parity
       else cs.foldl Nat.xor s.core.parity) := by
  obtain ⟨h1, _, h3, _, _⟩ := run_ordinary_field now cs s hcs
    (by rw [hstart]; exact Nat.zero_le 14) hpar
  refine ⟨?_, h3⟩
  rw [h1, hstart, List.nil_append]

/-- Witness for C7 at a concrete input: twenty ordinary characters leave
the first fourteen in the buffer and fold all twenty into the parity. -/
theorem C7_witness :
    (run 0 initState (bytes "ABCDEFGHIJKLMNOPQRST")).core.term =
      (bytes "ABCDEFGHIJKLMNOPQRST").take 14 ∧
    (run 0 initState (bytes "ABCDEFGHIJKLMNOPQRST")).core.parity =
      (if initState.core.is_checksum_term = true then initState.core.parity
       else (bytes "ABCDEFGHIJKLMNOPQRST").foldl Nat.xor initState.core.parity) :=
  C7_field_buffer_truncation 0 initState (bytes "ABCDEFGHIJKLMNOPQRST") (by decide) (by decide)
    (by decide)

/-- **C1.**  A sentence whose transmitted two-hex-digit checksum does not
equal the accumulated parity leaves every fix-state field exactly as it was
before the sentence began, and `encode` returns `false` on the terminator
that evaluates the checksum term. -/
theorem C1_checksum_mismatch_preserves_fix (now : Nat) (s : State) (body cs : List Nat)
    (hb : ∀ c ∈ body, c < 256 ∧ c ≠ 36 ∧ c ≠ 42 ∧ c ≠ 13 ∧ c ≠ 10)
    (hcs : ∀ c ∈ cs, c < 256 ∧ c ≠ 36 ∧ c ≠ 42 ∧ c ≠ 44 ∧ c ≠ 13 ∧ c ≠ 10)
    (hmm : checksumOfTerm cs ≠ body.foldl Nat.xor 0) :
    (encode now (run now s (36 :: (body ++ 42 :: cs))) 13).1 = false ∧
    fixOf (encode now (run now s (36 :: (body ++ 42 :: cs))) 13).2 = fixOf s := by
  obtain ⟨hp, hi, ht, hblt, hf⟩ := sentence_run_facts now s body cs hb hcs
  have hnopass : ¬ checksumPassed (run now s (36 :: (body ++ 42 :: cs))) 13 := by
    intro hpass
    have hx := hpass.2.2.2
    rw [if_neg (by decide), ht, checksumOfTerm_take, hp] at hx
    exact hmm hx
  obtain ⟨hr1, hr2⟩ := encode_fixOf now _ 13 hnopass
  exact ⟨hr1, hr2.trans hf⟩

/-- Witness for C1 at a concrete input: the RMC sentence with its checksum
corrupted to `00` is rejected and the fix state of the fresh parser is
untouched. -/
theorem C1_witness :
    (encode 0 (run 0 initState (36 :: (bytes "GPRMC,045103.000,A,3014.1984,N,09749.2872,W,0.67,161.46,030913,,,A" ++ 42 :: bytes "00"))) 13).1 = false ∧
    fixOf (encode 0 (run 0 initState (36 :: (bytes "GPRMC,045103.000,A,3014.1984,N,09749.2872,W,0.67,161.46,030913,,,A" ++ 42 :: bytes "00"))) 13).2 = fixOf initState :=
  C1_checksum_mismatch_preserves_fix 0 initState
    (bytes "GPRMC,045103.000,A,3014.1984,N,09749.2872,W,0.67,161.46,030913,,,A")
    (bytes "00") (by decide) (by decide) (by decide)

/-- `relW` composes along successive steps. -/
theorem relW_trans {α : Type _} {x y a b a0 b0 : α}
    (h1 : relW x y a b) (h2 : relW a b a0 b0) : relW x y a0 b0 := by
  rcases h1 with h1 | ⟨hx, hy⟩
  · exact Or.inl h1
  · rcases h2 with h2 | ⟨ha, hb⟩
    · exact Or.inl (hx.trans (h2.trans hy.symm))
    · exact Or.inr ⟨hx.trans ha, hy.trans hb⟩

/-- `OutRel` is reflexive over any pair with equal table lengths. -/
theorem OutRel_refl (o1 o2 : Out) (hlen : o1.tracked_sat_rec.length = o2.tracked_sat_rec.length) :
    OutRel o1 o2 o1 o2 := by
  refine ⟨?_, ?_, ?_, ?_, ?_, ?_, ?_, ?_, ?_, ?_, ?_, ?_, ?_, ?_, ?_, ?_, fun i => ?_, hlen⟩ <;>
    exact Or.inr ⟨rfl, rfl⟩

/-- `OutRel` composes along successive steps. -/
theorem OutRel_trans {x y a b a0 b0 : Out}
    (h1 : OutRel x y a b) (h2 : OutRel a b a0 b0) : OutRel x y a0 b0 := by
  obtain ⟨p1, p2, p3, p4, p5, p6, p7, p8, p9, p10, p11, p12, p13, p14, p15, p16, p17, p18⟩ := h1
  obtain ⟨q1, q2, q3, q4, q5, q6, q7, q8, q9, q10, q11, q12, q13, q14, q15, q16, q17, q18⟩ := h2
  exact ⟨relW_trans p1 q1, relW_trans p2 q2, relW_trans p3 q3, relW_trans p4 q4,
         relW_trans p5 q5, relW_trans p6 q6, relW_trans p7 q7, relW_trans p8 q8,
         relW_trans p9 q9, relW_trans p10 q10, relW_trans p11 q11, relW_trans p12 q12,
         relW_trans p13 q13, relW_trans p14 q14, relW_trans p15 q15, relW_trans p16 q16,
         fun i => relW_trans (p17 i) (q17 i), p18⟩

/-- `cntRel` is reflexive. -/
theorem cntRel_refl (a b m : Nat) : cntRel a b a b m := Or.inl ⟨rfl, rfl⟩

/-- `cntRel` composes along successive steps. -/
theorem cntRel_trans {x y a b a0 b0 m : Nat}
    (h1 : cntRel x y a b m) (h2 : cntRel a b a0 b0 m) : cntRel x y a0 b0 m := by
  rcases h1 with ⟨hx, hy⟩ | ⟨d, hx, hy⟩
  · rcases h2 with ⟨ha, hb⟩ | ⟨e, ha, hb⟩
    · exact Or.inl ⟨hx.trans ha, hy.trans hb⟩
    · exact Or.inr ⟨e, hx.trans ha, hy.trans hb⟩
  · rcases h2 with ⟨ha, hb⟩ | ⟨e, ha, hb⟩
    · exact Or.inr ⟨d, by rw [hx, ha], by rw [hy, hb]⟩
    · refine Or.inr ⟨e + d, ?_, ?_⟩
      · rw [hx, ha, Nat.mod_add_mod, Nat.add_assoc]
      · rw [hy, hb, Nat.mod_add_mod, Nat.add_assoc]

/-- `StatsRel` is reflexive. -/
theorem StatsRel_refl (k1 k2 : Stats) : StatsRel k1 k2 k1 k2 :=
  ⟨cntRel_refl _ _ _, cntRel_refl _ _ _, cntRel_refl _ _ _⟩

/-- `StatsRel` composes along successive steps. -/
theorem StatsRel_trans {x y a b a0 b0 : Stats}
    (h1 : StatsRel x y a b) (h2 : StatsRel a b a0 b0) : StatsRel x y a0 b0 :=
  ⟨cntRel_trans h1.1 h2.1, cntRel_trans h1.2.1 h2.2.1, cntRel_trans h1.2.2 h2.2.2⟩

/-- The slot-clearing loop preserves the table length. -/
theorem resetSlotsAux_length (count : Nat) : ∀ (l : List Nat) (x : Nat),
    (resetSlotsAux l x count).length = l.length := by
  induction count with
  | zero => intro l x; rfl
  | succ k ih =>
    intro l x
    rw [resetSlotsAux, ih (l.set x 0) (x + 1), List.length_set]

/-- A common `set` on two same-length tables relates every slot. -/
theorem relW_set_get? (l1 l2 : List Nat) (idx v i : Nat)
    (hlen : l1.length = l2.length) :
    relW ((l1.set idx v).get? i) ((l2.set idx v).get? i) (l1.get? i) (l2.get? i) := by
  by_cases hi : i = idx
  · subst hi
    by_cases hl : i < l1.length
    · exact Or.inl (by rw [List.get?_set_eq_of_lt v hl, List.get?_set_eq_of_lt v (hlen ▸ hl)])
    · refine Or.inr ⟨?_, ?_⟩
      · rw [List.set_eq_of_length_le (Nat.le_of_not_lt hl)]
      · rw [List.set_eq_of_length_le (Nat.le_of_not_lt (hlen ▸ hl))]
  · exact Or.inr ⟨List.get?_set_ne v l1 (fun h => hi h.symm),
                  List.get?_set_ne v l2 (fun h => hi h.symm)⟩

/-- A common slot-clearing loop on two same-length tables relates every
slot. -/
theorem relW_reset_get? (l1 l2 : List Nat) (start i : Nat)
    (hlen : l1.length = l2.length) :
    relW ((resetSlots l1 start).get? i) ((resetSlots l2 start).get? i)
      (l1.get? i) (l2.get? i) := by
  unfold resetSlots
  by_cases h1 : i < start
  · exact Or.inr ⟨resetSlotsAux_get?_lt 12 l1 start i h1, resetSlotsAux_get?_lt 12 l2 start i h1⟩
  · by_cases h2 : start + 12 ≤ i
    · exact Or.inr ⟨resetSlotsAux_get?_ge 12 l1 start i h2, resetSlotsAux_get?_ge 12 l2 start i h2⟩
    · by_cases h3 : i < l1.length
      · exact Or.inl (by
          rw [resetSlotsAux_get?_in 12 l1 start i (Nat.le_of_not_lt h1) (Nat.lt_of_not_le h2) h3,
              resetSlotsAux_get?_in 12 l2 start i (Nat.le_of_not_lt h1) (Nat.lt_of_not_le h2) (hlen ▸ h3)])
      · refine Or.inr ⟨?_, ?_⟩
        · rw [List.get?_eq_none.2 (by rw [resetSlotsAux_length]; omega),
              List.get?_eq_none.2 (by omega)]
        · rw [List.get?_eq_none.2 (by rw [resetSlotsAux_length]; omega),
              List.get?_eq_none.2 (by omega)]

/-- `dispatch` changes the core exactly as `dispatchCore` says. -/
theorem dispatch_core (now : Nat) (s : State) :
    (dispatch now s).core = dispatchCore now s.core := by
  unfold dispatch dispatchCore
  split <;> (try dsimp only) <;> (try split) <;> rfl

/-- `dispatch` never touches the statistics counters. -/
theorem dispatch_stats (now : Nat) (s : State) : (dispatch now s).stats = s.stats := by
  unfold dispatch
  split <;> (try dsimp only) <;> (try split) <;> rfl

/-- `dispatch` changes the outputs exactly as `dispatchOut` says. -/
theorem dispatch_out (now : Nat) (s : State) :
    (dispatch now s).out = dispatchOut s.core s.out := by
  unfold dispatch dispatchOut
  split <;> (try dsimp only) <;> (try split) <;> rfl

set_option maxHeartbeats 4000000 in
/-- Two parallel `dispatchOut`s from a shared core produce related
outputs. -/
theorem dispatchOut_rel (C : Core) (o1 o2 : Out)
    (hlen : o1.tracked_sat_rec.length = o2.tracked_sat_rec.length) :
    OutRel (dispatchOut C o1) (dispatchOut C o2) o1 o2 := by
  unfold dispatchOut
  split <;> (try dsimp only) <;> (try split) <;> (try split) <;>
    (refine ⟨?_, ?_, ?_, ?_, ?_, ?_, ?_, ?_, ?_, ?_, ?_, ?_, ?_, ?_, ?_, ?_, fun i => ?_, ?_⟩ <;>
      first
        | exact Or.inr ⟨rfl, rfl⟩
        | exact Or.inl rfl
        | exact hlen
        | exact relW_set_get? _ _ _ _ _ hlen
        | exact relW_reset_get? _ _ _ _ hlen
        | (simp only [resetSlots, resetSlotsAux_length, List.length_set]; exact hlen))

/-- Two parallel dispatches from a shared core leave the stats alone,
produce equal cores, and produce related outputs. -/
theorem dispatch_sim (now : Nat) (C : Core) (o1 o2 : Out) (k1 k2 : Stats)
    (hlen : o1.tracked_sat_rec.length = o2.tracked_sat_rec.length) :
    (dispatch now ⟨C, o1, k1⟩).core = (dispatch now ⟨C, o2, k2⟩).core ∧
    (dispatch now ⟨C, o1, k1⟩).stats = k1 ∧
    (dispatch now ⟨C, o2, k2⟩).stats = k2 ∧
    OutRel (dispatch now ⟨C, o1, k1⟩).out (dispatch now ⟨C, o2, k2⟩).out o1 o2 := by
  refine ⟨?_, ?_, ?_, ?_⟩
  · rw [dispatch_core now ⟨C, o1, k1⟩, dispatch_core now ⟨C, o2, k2⟩]
  · exact dispatch_stats now ⟨C, o1, k1⟩
  · exact dispatch_stats now ⟨C, o2, k2⟩
  · rw [dispatch_out now ⟨C, o1, k1⟩, dispatch_out now ⟨C, o2, k2⟩]
    exact dispatchOut_rel C o1 o2 hlen

/-- Two parallel date/time pre-commits with a shared core produce related
outputs and touch nothing else. -/
theorem commitDateTime_sim (C : Core) (o1 o2 : Out) (k1 k2 : Stats)
    (hlen : o1.tracked_sat_rec.length = o2.tracked_sat_rec.length) :
    ∃ o1' o2', commitDateTime ⟨C, o1, k1⟩ = ⟨C, o1', k1⟩ ∧
      commitDateTime ⟨C, o2, k2⟩ = ⟨C, o2', k2⟩ ∧ OutRel o1' o2' o1 o2 := by
  unfold commitDateTime
  dsimp only
  by_cases h : C.sentence_type = SENT_GPRMC ∨ (C.sentence_type = SENT_PUBX ∧ C.ubx_type = 4)
  · rw [if_pos h, if_pos h]
    refine ⟨_, _, rfl, rfl, ?_⟩
    refine ⟨?_, ?_, ?_, ?_, ?_, ?_, ?_, ?_, ?_, ?_, ?_, ?_, ?_, ?_, ?_, ?_, fun i => ?_, hlen⟩ <;>
      first | exact Or.inl rfl | exact Or.inr ⟨rfl, rfl⟩
  · rw [if_neg h, if_neg h]
    exact ⟨o1, o2, rfl, rfl, OutRel_refl o1 o2 hlen⟩

/-- Two parallel ZDA pre-commits with a shared core produce related
outputs and touch nothing else. -/
theorem commitZDA_sim (C : Core) (o1 o2 : Out) (k1 k2 : Stats)
    (hlen : o1.tracked_sat_rec.length = o2.tracked_sat_rec.length) :
    ∃ o1' o2', commitZDA ⟨C, o1, k1⟩ = ⟨C, o1', k1⟩ ∧
      commitZDA ⟨C, o2, k2⟩ = ⟨C, o2', k2⟩ ∧ OutRel o1' o2' o1 o2 := by
  unfold commitZDA
  dsimp only
  by_cases h : C.sentence_type = SENT_GPZDA
  · rw [if_pos h, if_pos h]
    refine ⟨_, _, rfl, rfl, ?_⟩
    refine ⟨?_, ?_, ?_, ?_, ?_, ?_, ?_, ?_, ?_, ?_, ?_, ?_, ?_, ?_, ?_, ?_, fun i => ?_, hlen⟩ <;>
      first | exact Or.inl rfl | exact Or.inr ⟨rfl, rfl⟩
  · rw [if_neg h, if_neg h]
    exact ⟨o1, o2, rfl, rfl, OutRel_refl o1 o2 hlen⟩

/-- Two parallel data-good commits with a shared core produce related
outputs and count one good sentence each. -/
theorem commitGood_sim (C : Core) (o1 o2 : Out) (k1 k2 : Stats)
    (hlen : o1.tracked_sat_rec.length = o2.tracked_sat_rec.length) :
    ∃ o1' o2' k1' k2', commitGood ⟨C, o1, k1⟩ = ⟨C, o1', k1'⟩ ∧
      commitGood ⟨C, o2, k2⟩ = ⟨C, o2', k2'⟩ ∧ OutRel o1' o2' o1 o2 ∧
      StatsRel k1' k2' k1 k2 := by
  unfold commitGood
  dsimp only
  have hstats : StatsRel
      { k1 with good_sentences := (k1.good_sentences + 1) % M16 }
      { k2 with good_sentences := (k2.good_sentences + 1) % M16 } k1 k2 :=
    ⟨cntRel_refl _ _ _, Or.inr ⟨1, rfl, rfl⟩, cntRel_refl _ _ _⟩
  by_cases h1 : C.sentence_type = SENT_GPRMC
  · rw [if_pos h1, if_pos h1]
    refine ⟨_, _, _, _, rfl, rfl, ?_, hstats⟩
    refine ⟨?_, ?_, ?_, ?_, ?_, ?_, ?_, ?_, ?_, ?_, ?_, ?_, ?_, ?_, ?_, ?_, fun i => ?_, hlen⟩ <;>
      first | exact Or.inl rfl | exact Or.inr ⟨rfl, rfl⟩
  · rw [if_neg h1, if_neg h1]
    by_cases h2 : C.sentence_type = SENT_GPGGA
    · rw [if_pos h2, if_pos h2]
      refine ⟨_, _, _, _, rfl, rfl, ?_, hstats⟩
      refine ⟨?_, ?_, ?_, ?_, ?_, ?_, ?_, ?_, ?_, ?_, ?_, ?_, ?_, ?_, ?_, ?_, fun i => ?_, hlen⟩ <;>
        first | exact Or.inl rfl | exact Or.inr ⟨rfl, rfl⟩
    · rw [if_neg h2, if_neg h2]
      by_cases h3 : C.sentence_type = SENT_PUBX
      · rw [if_pos h3, if_pos h3]
        by_cases h4 : C.ubx_type = 0
        · rw [if_pos h4, if_pos h4]
          refine ⟨_, _, _, _, rfl, rfl, ?_, hstats⟩
          refine ⟨?_, ?_, ?_, ?_, ?_, ?_, ?_, ?_, ?_, ?_, ?_, ?_, ?_, ?_, ?_, ?_, fun i => ?_, hlen⟩ <;>
            first | exact Or.inl rfl | exact Or.inr ⟨rfl, rfl⟩
        · rw [if_neg h4, if_neg h4]
          refine ⟨_, _, _, _, rfl, rfl, ?_, hstats⟩
          refine ⟨?_, ?_, ?_, ?_, ?_, ?_, ?_, ?_, ?_, ?_, ?_, ?_, ?_, ?_, ?_, ?_, fun i => ?_, hlen⟩ <;>
            first | exact Or.inl rfl | exact Or.inr ⟨rfl, rfl⟩
      · rw [if_neg h3, if_neg h3]
        refine ⟨_, _, _, _, rfl, rfl, ?_, hstats⟩
        refine ⟨?_, ?_, ?_, ?_, ?_, ?_, ?_, ?_, ?_, ?_, ?_, ?_, ?_, ?_, ?_, ?_, fun i => ?_, hlen⟩ <;>
          first | exact Or.inl rfl | exact Or.inr ⟨rfl, rfl⟩

/-- The table-length clause of `OutRel`, extracted. -/
theorem OutRel_len {a b a0 b0 : Out} (h : OutRel a b a0 b0) :
    a.tracked_sat_rec.length = b.tracked_sat_rec.length :=
  h.2.2.2.2.2.2.2.2.2.2.2.2.2.2.2.2.2

/-- Two parallel `term_complete`s with a shared core return the same flag,
produce equal cores, and produce related outputs and stats. -/
theorem term_complete_sim (now : Nat) (C : Core) (o1 o2 : Out) (k1 k2 : Stats)
    (hlen : o1.tracked_sat_rec.length = o2.tracked_sat_rec.length) :
    (term_complete now ⟨C, o1, k1⟩).1 = (term_complete now ⟨C, o2, k2⟩).1 ∧
    (term_complete now ⟨C, o1, k1⟩).2.core = (term_complete now ⟨C, o2, k2⟩).2.core ∧
    OutRel (term_complete now ⟨C, o1, k1⟩).2.out (term_complete now ⟨C, o2, k2⟩).2.out o1 o2 ∧
    StatsRel (term_complete now ⟨C, o1, k1⟩).2.stats (term_complete now ⟨C, o2, k2⟩).2.stats k1 k2 := by
  unfold term_complete
  dsimp only
  by_cases h1 : C.is_checksum_term = true
  · rw [if_pos h1, if_pos h1]
    by_cases h2 : checksumOfTerm C.term = C.parity
    · rw [if_pos h2, if_pos h2]
      obtain ⟨oA1, oA2, e1, e2, hrelA⟩ := commitDateTime_sim C o1 o2 k1 k2 hlen
      rw [e1, e2]
      obtain ⟨oB1, oB2, f1, f2, hrelB⟩ := commitZDA_sim C oA1 oA2 k1 k2 (OutRel_len hrelA)
      rw [f1, f2]
      dsimp only
      by_cases h3 : C.gps_data_good = true
      · rw [if_pos h3, if_pos h3]
        obtain ⟨oC1, oC2, kC1, kC2, g1, g2, hrelC, hstatC⟩ :=
          commitGood_sim C oB1 oB2 k1 k2 (OutRel_len hrelB)
        rw [g1, g2]
        exact ⟨rfl, rfl, OutRel_trans hrelC (OutRel_trans hrelB hrelA), hstatC⟩
      · rw [if_neg h3, if_neg h3]
        exact ⟨rfl, rfl, OutRel_trans hrelB hrelA, StatsRel_refl k1 k2⟩
    · rw [if_neg h2, if_neg h2]
      exact ⟨rfl, rfl, OutRel_refl o1 o2 hlen,
        cntRel_refl _ _ _, cntRel_refl _ _ _, Or.inr ⟨1, rfl, rfl⟩⟩
  · rw [if_neg h1, if_neg h1]
    by_cases h4 : C.term_number = 0
    · rw [if_pos h4, if_pos h4]
      exact ⟨rfl, rfl, OutRel_refl o1 o2 hlen, StatsRel_refl k1 k2⟩
    · rw [if_neg h4, if_neg h4]
      by_cases h5 : C.sentence_type = SENT_PUBX ∧ C.term_number = 1
      · rw [if_pos h5, if_pos h5]
        exact ⟨rfl, rfl, OutRel_refl o1 o2 hlen, StatsRel_refl k1 k2⟩
      · rw [if_neg h5, if_neg h5]
        by_cases h6 : C.sentence_type ≠ SENT_OTHER ∧ termAt C.term 0 ≠ 0
        · rw [if_pos h6, if_pos h6]
          have hd := dispatch_sim now C o1 o2 k1 k2 hlen
          refine ⟨rfl, hd.1, hd.2.2.2, ?_⟩
          rw [hd.2.1, hd.2.2.1]
          exact StatsRel_refl k1 k2
        · rw [if_neg h6, if_neg h6]
          exact ⟨rfl, rfl, OutRel_refl o1 o2 hlen, StatsRel_refl k1 k2⟩

/-- Two parallel `closeTerm`s with a shared core return the same flag,
produce equal cores, and produce related outputs and stats. -/
theorem closeTerm_sim (now : Nat) (C : Core) (o1 o2 : Out) (k1 k2 : Stats) (c : Nat)
    (hlen : o1.tracked_sat_rec.length = o2.tracked_sat_rec.length) :
    (closeTerm now ⟨C, o1, k1⟩ c).1 = (closeTerm now ⟨C, o2, k2⟩ c).1 ∧
    (closeTerm now ⟨C, o1, k1⟩ c).2.core = (closeTerm now ⟨C, o2, k2⟩ c).2.core ∧
    OutRel (closeTerm now ⟨C, o1, k1⟩ c).2.out (closeTerm now ⟨C, o2, k2⟩ c).2.out o1 o2 ∧
    StatsRel (closeTerm now ⟨C, o1, k1⟩ c).2.stats (closeTerm now ⟨C, o2, k2⟩ c).2.stats k1 k2 := by
  have ht := term_complete_sim now C o1 o2 k1 k2 hlen
  unfold closeTerm
  dsimp only
  by_cases hl : C.term.length < 15
  · rw [if_pos hl, if_pos hl]
    refine ⟨ht.1, ?_, ht.2.2.1, ht.2.2.2⟩
    rw [ht.2.1]
  · rw [if_neg hl, if_neg hl]
    exact ⟨rfl, rfl, OutRel_refl o1 o2 hlen, StatsRel_refl k1 k2⟩

/-- Two parallel `encode`s of one character with a shared core return the
same flag, produce equal cores, and produce related outputs and stats. -/
theorem encode_sim (now : Nat) (C : Core) (o1 o2 : Out) (k1 k2 : Stats) (c : Nat)
    (hlen : o1.tracked_sat_rec.length = o2.tracked_sat_rec.length) :
    (encode now ⟨C, o1, k1⟩ c).1 = (encode now ⟨C, o2, k2⟩ c).1 ∧
    (encode now ⟨C, o1, k1⟩ c).2.core = (encode now ⟨C, o2, k2⟩ c).2.core ∧
    OutRel (encode now ⟨C, o1, k1⟩ c).2.out (encode now ⟨C, o2, k2⟩ c).2.out o1 o2 ∧
    StatsRel (encode now ⟨C, o1, k1⟩ c).2.stats (encode now ⟨C, o2, k2⟩ c).2.stats k1 k2 := by
  have henc : StatsRel
      { k1 with encoded_characters := (k1.encoded_characters + 1) % M32 }
      { k2 with encoded_characters := (k2.encoded_characters + 1) % M32 } k1 k2 :=
    ⟨Or.inr ⟨1, rfl, rfl⟩, cntRel_refl _ _ _, cntRel_refl _ _ _⟩
  unfold encode
  dsimp only
  by_cases h44 : c = 44
  · rw [if_pos h44, if_pos h44]
    have hct := closeTerm_sim now { C with parity := (C.parity ^^^ 44) % 256 } o1 o2
      { k1 with encoded_characters := (k1.encoded_characters + 1) % M32 }
      { k2 with encoded_characters := (k2.encoded_characters + 1) % M32 } c hlen
    exact ⟨hct.1, hct.2.1, hct.2.2.1, StatsRel_trans hct.2.2.2 henc⟩
  · rw [if_neg h44, if_neg h44]
    by_cases hterm : c = 13 ∨ c = 10 ∨ c = 42
    · rw [if_pos hterm, if_pos hterm]
      have hct := closeTerm_sim now C o1 o2
        { k1 with encoded_characters := (k1.encoded_characters + 1) % M32 }
        { k2 with encoded_characters := (k2.encoded_characters + 1) % M32 } c hlen
      exact ⟨hct.1, hct.2.1, hct.2.2.1, StatsRel_trans hct.2.2.2 henc⟩
    · rw [if_neg hterm, if_neg hterm]
      by_cases h36 : c = 36
      · rw [if_pos h36, if_pos h36]
        exact ⟨rfl, rfl, OutRel_refl o1 o2 hlen, henc⟩
      · rw [if_neg h36, if_neg h36]
        by_cases h14 : C.term.length < 14
        · rw [if_pos h14, if_pos h14]
          dsimp only
          by_cases hck : C.is_checksum_term = true
          · rw [if_pos hck, if_pos hck]
            exact ⟨rfl, rfl, OutRel_refl o1 o2 hlen, henc⟩
          · rw [if_neg hck, if_neg hck]
            exact ⟨rfl, rfl, OutRel_refl o1 o2 hlen, henc⟩
        · rw [if_neg h14, if_neg h14]
          dsimp only
          by_cases hck : C.is_checksum_term = true
          · rw [if_pos hck, if_pos hck]
            exact ⟨rfl, rfl, OutRel_refl o1 o2 hlen, henc⟩
          · rw [if_neg hck, if_neg hck]
            exact ⟨rfl, rfl, OutRel_refl o1 o2 hlen, henc⟩

/-- Two parallel runs over the same characters with a shared core produce
equal cores, related outputs, and stats that grew by a common count. -/
theorem run_sim (now : Nat) (cs : List Nat) : ∀ (C : Core) (o1 o2 : Out) (k1 k2 : Stats),
    o1.tracked_sat_rec.length = o2.tracked_sat_rec.length →
    (run now ⟨C, o1, k1⟩ cs).core = (run now ⟨C, o2, k2⟩ cs).core ∧
    OutRel (run now ⟨C, o1, k1⟩ cs).out (run now ⟨C, o2, k2⟩ cs).out o1 o2 ∧
    StatsRel (run now ⟨C, o1, k1⟩ cs).stats (run now ⟨C, o2, k2⟩ cs).stats k1 k2 := by
  induction cs with
  | nil =>
    intro C o1 o2 k1 k2 hlen
    exact ⟨rfl, OutRel_refl o1 o2 hlen, StatsRel_refl k1 k2⟩
  | cons c r ih =>
    intro C o1 o2 k1 k2 hlen
    have he := encode_sim now C o1 o2 k1 k2 c hlen
    have ihh := ih (encode now ⟨C, o1, k1⟩ c).2.core (encode now ⟨C, o1, k1⟩ c).2.out
      (encode now ⟨C, o2, k2⟩ c).2.out (encode now ⟨C, o1, k1⟩ c).2.stats
      (encode now ⟨C, o2, k2⟩ c).2.stats (OutRel_len he.2.2.1)
    have h2 : (⟨(encode now ⟨C, o1, k1⟩ c).2.core, (encode now ⟨C, o2, k2⟩ c).2.out,
        (encode now ⟨C, o2, k2⟩ c).2.stats⟩ : State) = (encode now ⟨C, o2, k2⟩ c).2 := by
      rw [he.2.1]
    rw [h2] at ihh
    exact ⟨ihh.1, OutRel_trans ihh.2.1 he.2.2.1, StatsRel_trans ihh.2.2 he.2.2.2⟩

/-- The date/time pre-commit never touches the satellite table. -/
theorem commitDateTime_tab (s : State) :
    (commitDateTime s).out.tracked_sat_rec = s.out.tracked_sat_rec := by
  unfold commitDateTime
  split <;> rfl

/-- The ZDA pre-commit never touches the satellite table. -/
theorem commitZDA_tab (s : State) :
    (commitZDA s).out.tracked_sat_rec = s.out.tracked_sat_rec := by
  unfold commitZDA
  split <;> rfl

/-- The data-good commit never touches the satellite table. -/
theorem commitGood_tab (s : State) :
    (commitGood s).out.tracked_sat_rec = s.out.tracked_sat_rec := by
  unfold commitGood
  dsimp only
  split <;> (try split) <;> (try split) <;> (try split) <;> rfl

/-- `dispatchOut` preserves the satellite-table length. -/
theorem dispatchOut_tab_len (C : Core) (o : Out) :
    (dispatchOut C o).tracked_sat_rec.length = o.tracked_sat_rec.length := by
  unfold dispatchOut
  split <;> (try dsimp only) <;> (try split) <;> (try split) <;>
    first
      | rfl
      | simp only [resetSlots, resetSlotsAux_length, List.length_set]

/-- `term_complete` preserves the satellite-table length. -/
theorem term_complete_tab_len (now : Nat) (s : State) :
    (term_complete now s).2.out.tracked_sat_rec.length = s.out.tracked_sat_rec.length := by
  unfold term_complete
  split
  · split
    · dsimp only
      split
      · dsimp only
        rw [commitGood_tab, commitZDA_tab, commitDateTime_tab]
      · dsimp only
        rw [commitZDA_tab, commitDateTime_tab]
    · rfl
  · split
    · rfl
    · split
      · rfl
      · split
        · dsimp only
          rw [dispatch_out]
          exact dispatchOut_tab_len s.core s.out
        · rfl

/-- `closeTerm` preserves the satellite-table length. -/
theorem closeTerm_tab_len (now : Nat) (s : State) (c : Nat) :
    (closeTerm now s c).2.out.tracked_sat_rec.length = s.out.tracked_sat_rec.length := by
  unfold closeTerm
  dsimp only
  split
  · exact term_complete_tab_len now s
  · rfl

/-- `encode` preserves the satellite-table length. -/
theorem encode_tab_len (now : Nat) (s : State) (c : Nat) :
    (encode now s c).2.out.tracked_sat_rec.length = s.out.tracked_sat_rec.length := by
  unfold encode
  dsimp only
  split
  · exact closeTerm_tab_len now _ c
  · split
    · exact closeTerm_tab_len now _ c
    · split
      · rfl
      · split <;> (try dsimp only) <;> split <;> rfl

/-- A whole run preserves the satellite-table length. -/
theorem run_tab_len (now : Nat) (cs : List Nat) : ∀ s : State,
    (run now s cs).out.tracked_sat_rec.length = s.out.tracked_sat_rec.length := by
  induction cs with
  | nil => intro s; rfl
  | cons c r ih =>
    intro s
    exact (ih (encode now s c).2).trans (encode_tab_len now s c)

/-- When the `b`-side start of a `relW` instance is the `a`-side origin,
both disjuncts collapse to equality. -/
theorem relW_collapse {α : Type _} {a b b0 : α} (h : relW a b b b0) : a = b := by
  rcases h with h | ⟨h1, h2⟩
  · exact h
  · exact h1

/-- When the `b`-side of a `cntRel` instance starts at the `a`-side origin
and the `b`-side origin is zero, the two counts are `d` and `2 * d` modulo
the width. -/
theorem cntRel_collapse {a b m : Nat} (h : cntRel a b b 0 m) :
    ∃ d, b = d % m ∧ a = (2 * d) % m := by
  rcases h with ⟨ha, hb⟩ | ⟨d, ha, hb⟩
  · exact ⟨0, by rw [hb, Nat.zero_mod], by rw [ha, hb, Nat.mul_zero, Nat.zero_mod]⟩
  · exact ⟨d, by rw [hb, Nat.zero_add], by rw [ha, hb, Nat.zero_add, Nat.mod_add_mod, two_mul]⟩

/-- **C8** (amended).  Idempotence up to counter doubling holds for every
stream of the form `A ++ B` whose replayed prefix `A` resynchronizes the
parser: starting the second pass, the run over `A` (i) reaches the same
core (cursor, checksum, sentence tagging and staging slots) as the fresh
run over `A` did, (ii) performs matching output writes (each fix field,
satellite slot and the constellation buffer is either written with a
common value in both runs over `A` or left at its respective start), and
(iii) advances each statistics counter by a common amount.  Then feeding
`A ++ B` twice from a fresh parser leaves the whole Fix State, the
satellite table and the constellation buffer exactly as one pass does,
and each statistics counter reaches twice its single-pass increment
modulo its width.  (Without such a resynchronizing split the original
claim is false: see the counterexample, where stale staging data promoted
by the second pass changes the committed date.) -/
theorem C8_amended (now : Nat) (A B : List Nat)
    (hcore : (run now (run now initState (A ++ B)) A).core = (run now initState A).core)
    (hout : OutRel (run now (run now initState (A ++ B)) A).out (run now initState A).out
      (run now initState (A ++ B)).out initState.out)
    (hstat : StatsRel (run now (run now initState (A ++ B)) A).stats (run now initState A).stats
      (run now initState (A ++ B)).stats initState.stats) :
    fixOf (run now initState ((A ++ B) ++ (A ++ B))) = fixOf (run now initState (A ++ B)) ∧
    (run now initState ((A ++ B) ++ (A ++ B))).out.tracked_sat_rec
      = (run now initState (A ++ B)).out.tracked_sat_rec ∧
    (run now initState ((A ++ B) ++ (A ++ B))).out.constellations
      = (run now initState (A ++ B)).out.constellations ∧
    (∃ d, (run now initState (A ++ B)).stats.encoded_characters = d % M32 ∧
      (run now initState ((A ++ B) ++ (A ++ B))).stats.encoded_characters = (2 * d) % M32) ∧
    (∃ d, (run now initState (A ++ B)).stats.good_sentences = d % M16 ∧
      (run now initState ((A ++ B) ++ (A ++ B))).stats.good_sentences = (2 * d) % M16) ∧
    (∃ d, (run now initState (A ++ B)).stats.failed_checksum = d % M16 ∧
      (run now initState ((A ++ B) ++ (A ++ B))).stats.failed_checksum = (2 * d) % M16) := by
  have hsim := run_sim now B (run now initState A).core
    (run now (run now initState (A ++ B)) A).out (run now initState A).out
    (run now (run now initState (A ++ B)) A).stats (run now initState A).stats (OutRel_len hout)
  have hA1 : (⟨(run now initState A).core, (run now (run now initState (A ++ B)) A).out,
      (run now (run now initState (A ++ B)) A).stats⟩ : State)
      = run now (run now initState (A ++ B)) A := by rw [← hcore]
  have hA2 : (⟨(run now initState A).core, (run now initState A).out,
      (run now initState A).stats⟩ : State) = run now initState A := rfl
  rw [hA1, hA2] at hsim
  have e1 : run now (run now (run now initState (A ++ B)) A) B
      = run now initState ((A ++ B) ++ (A ++ B)) := by
    rw [run_append now (A ++ B) (A ++ B) initState,
        run_append now A B (run now initState (A ++ B))]
  have e2 : run now (run now initState A) B = run now initState (A ++ B) :=
    (run_append now A B initState).symm
  rw [e1, e2] at hsim
  obtain ⟨-, houtB, hstatB⟩ := hsim
  have houtT := OutRel_trans houtB hout
  have hstatT := StatsRel_trans hstatB hstat
  obtain ⟨w1, w2, w3, w4, w5, w6, w7, w8, w9, w10, w11, w12, w13, w14, w15, w16, wslot, -⟩ := houtT
  refine ⟨?_, List.ext fun i => relW_collapse (wslot i), relW_collapse w16,
    cntRel_collapse hstatT.1, cntRel_collapse hstatT.2.1, cntRel_collapse hstatT.2.2⟩
  unfold fixOf
  rw [relW_collapse w1, relW_collapse w2, relW_collapse w3, relW_collapse w4,
      relW_collapse w5, relW_collapse w6, relW_collapse w7, relW_collapse w8,
      relW_collapse w9, relW_collapse w10, relW_collapse w11, relW_collapse w12,
      relW_collapse w13, relW_collapse w14, relW_collapse w15]

/-- Witness for C8 (amended) at a concrete input: a complete valid RMC
sentence split after the comma that closes its date field.  Replaying the
prefix re-stages every slot the sentence promotes, so the hypotheses hold
and two passes leave the same Fix State as one. -/
theorem C8_amended_witness :
    (run 0 (run 0 initState (C8A ++ C8B)) C8A).core = (run 0 initState C8A).core ∧
    OutRel (run 0 (run 0 initState (C8A ++ C8B)) C8A).out (run 0 initState C8A).out
      (run 0 initState (C8A ++ C8B)).out initState.out ∧
    StatsRel (run 0 (run 0 initState (C8A ++ C8B)) C8A).stats (run 0 initState C8A).stats
      (run 0 initState (C8A ++ C8B)).stats initState.stats ∧
    fixOf (run 0 initState ((C8A ++ C8B) ++ (C8A ++ C8B))) = fixOf (run 0 initState (C8A ++ C8B)) := by
  have h1 : (run 0 (run 0 initState (C8A ++ C8B)) C8A).core = (run 0 initState C8A).core := by
    decide
  have ho1 : (run 0 (run 0 initState (C8A ++ C8B)) C8A).out
      = (run 0 initState (C8A ++ C8B)).out := by decide
  have ho2 : (run 0 initState C8A).out = initState.out := by decide
  have h2 : OutRel (run 0 (run 0 initState (C8A ++ C8B)) C8A).out (run 0 initState C8A).out
      (run 0 initState (C8A ++ C8B)).out initState.out := by
    rw [ho1, ho2]
    exact OutRel_refl _ _ (by decide)
  have h3 : StatsRel (run 0 (run 0 initState (C8A ++ C8B)) C8A).stats (run 0 initState C8A).stats
      (run 0 initState (C8A ++ C8B)).stats initState.stats :=
    ⟨Or.inr ⟨C8A.length, by decide, by decide⟩, Or.inl ⟨by decide, by decide⟩,
     Or.inl ⟨by decide, by decide⟩⟩
  exact ⟨h1, h2, h3, (C8_amended 0 C8A C8B h1 h2 h3).1⟩

/-- **C4.**  Feeding the byte sequence
`$GPRMC,045103.000,A,3014.1984,N,09749.2872,W,0.67,161.46,030913,,,A*7C`
followed by a `'\r'` terminator into a freshly constructed parser makes the
final `encode` call return `true` and yields time 4510300 (04:51:03.00),
latitude 30236640 millionths of a degree, longitude −97821453 millionths,
speed 67 hundredths of a knot, course 16146 hundredths of a degree and date
30913 (ddmmyy 030913). -/
theorem C4_known_good_rmc_sentence :
    (encode 0 (run 0 initState (bytes "$GPRMC,045103.000,A,3014.1984,N,09749.2872,W,0.67,161.46,030913,,,A*7C")) 13).1 = true ∧
    (encode 0 (run 0 initState (bytes "$GPRMC,045103.000,A,3014.1984,N,09749.2872,W,0.67,161.46,030913,,,A*7C")) 13).2.out.time = 4510300 ∧
    (encode 0 (run 0 initState (bytes "$GPRMC,045103.000,A,3014.1984,N,09749.2872,W,0.67,161.46,030913,,,A*7C")) 13).2.out.latitude = 30236640 ∧
    (encode 0 (run 0 initState (bytes "$GPRMC,045103.000,A,3014.1984,N,09749.2872,W,0.67,161.46,030913,,,A*7C")) 13).2.out.longitude = -97821453 ∧
    (encode 0 (run 0 initState (bytes "$GPRMC,045103.000,A,3014.1984,N,09749.2872,W,0.67,161.46,030913,,,A*7C")) 13).2.out.speed = 67 ∧
    (encode 0 (run 0 initState (bytes "$GPRMC,045103.000,A,3014.1984,N,09749.2872,W,0.67,161.46,030913,,,A*7C")) 13).2.out.course = 16146 ∧
    (encode 0 (run 0 initState (bytes "$GPRMC,045103.000,A,3014.1984,N,09749.2872,W,0.67,161.46,030913,,,A*7C")) 13).2.out.date = 30913 := by
  decide

/-- **C2, counterexample.**  The claim says every `encode` call that mutates
a Fix State field returns `true`, and that a call returning `false` leaves
all Fix State fields unchanged.  Feeding the checksum-valid RMC sentence
`$GPRMC,045103.000,V,…*6B` whose validity flag is `V` (data not good): the
final `'\r'` call returns `false`, yet it changes the fix time from the
`GPS_INVALID_TIME` sentinel to 4510300 (the `term_complete` commit promotes
RMC time/date on checksum match even when `_gps_data_good` is false). -/
theorem C2_counterexample_false_return_mutates_time :
    (encode 0 (run 0 initState (bytes "$GPRMC,045103.000,V,3014.1984,N,09749.2872,W,0.67,161.46,030913,,,A*6B")) 13).1 = false ∧
    (run 0 initState (bytes "$GPRMC,045103.000,V,3014.1984,N,09749.2872,W,0.67,161.46,030913,,,A*6B")).out.time = GPS_INVALID_TIME ∧
    (encode 0 (run 0 initState (bytes "$GPRMC,045103.000,V,3014.1984,N,09749.2872,W,0.67,161.46,030913,,,A*6B")) 13).2.out.time = 4510300 := by
  decide

/-- **C8, counterexample.**  The claim says feeding any byte sequence twice
from a fresh parser yields the same final Fix State as feeding it once.
Take `S` = a checksum-valid, data-good RMC sentence whose *date field is
empty* (so the commit promotes the stale staging slot `_new_date`),
followed by an unterminated RMC fragment that stages date 10101.  One pass
commits the initial staging value of `_new_date` (0 in this model,
uninitialized memory in the C++); the second pass's commit promotes 10101
staged by the tail of the first pass, so the final fix dates differ. -/
theorem C8_counterexample_not_idempotent :
    fixOf (run 0 initState
        ((bytes "$GPRMC,045103.000,A,3014.1984,N,09749.2872,W,0.67,161.46,,,,A*74" ++ [13] ++ bytes "$GPRMC,,,,,,,,,10101,") ++
         (bytes "$GPRMC,045103.000,A,3014.1984,N,09749.2872,W,0.67,161.46,,,,A*74" ++ [13] ++ bytes "$GPRMC,,,,,,,,,10101,"))) ≠
    fixOf (run 0 initState
        (bytes "$GPRMC,045103.000,A,3014.1984,N,09749.2872,W,0.67,161.46,,,,A*74" ++ [13] ++ bytes "$GPRMC,,,,,,,,,10101,")) ∧
    (run 0 initState
        (bytes "$GPRMC,045103.000,A,3014.1984,N,09749.2872,W,0.67,161.46,,,,A*74" ++ [13] ++ bytes "$GPRMC,,,,,,,,,10101,")).out.date = 0 ∧
    (run 0 initState
        ((bytes "$GPRMC,045103.000,A,3014.1984,N,09749.2872,W,0.67,161.46,,,,A*74" ++ [13] ++ bytes "$GPRMC,,,,,,,,,10101,") ++
         (bytes "$GPRMC,045103.000,A,3014.1984,N,09749.2872,W,0.67,161.46,,,,A*74" ++ [13] ++ bytes "$GPRMC,,,,,,,,,10101,"))).out.date = 10101 := by
  decide

/-- **C10.**  Reaching the GSV strength dispatch with an in-range table
index fails for message-sequence indexes the 12-slot constellation cannot
need: after `$GPGSV,8,8,01,07,00,000,45` (sequence index 8, so
`_sat_index = (8−1)·4 = 28`), the parser is in the strength case
(`COMBINE` key 135) with a non-zero strength, and the write index
`_sat_index + (_term_number−7)/4 = 28` is outside `tracked_sat_rec[24]` —
in the C++ this is an out-of-bounds array store. -/
theorem C10_gsv_strength_index_out_of_bounds :
    (run 0 initState (bytes "$GPGSV,8,8,01,07,00,000,45")).core.sentence_type = SENT_GPGSV ∧
    (run 0 initState (bytes "$GPGSV,8,8,01,07,00,000,45")).core.is_checksum_term = false ∧
    (run 0 initState (bytes "$GPGSV,8,8,01,07,00,000,45")).core.term_number = 7 ∧
    dispatchKey (run 0 initState (bytes "$GPGSV,8,8,01,07,00,000,45")).core = 135 ∧
    ucharOfInt (atoi (run 0 initState (bytes "$GPGSV,8,8,01,07,00,000,45")).core.term) = 45 ∧
    gsvStrengthIndex (run 0 initState (bytes "$GPGSV,8,8,01,07,00,000,45")).core = 28 ∧
    24 ≤ gsvStrengthIndex (run 0 initState (bytes "$GPGSV,8,8,01,07,00,000,45")).core := by
  decide

end TinyGPS
